import Mathlib

/-!
Verification of the scd30 firmware's reading buffer, upload pipeline and
sensor controller, shallowly embedded from the C++ sources
(`src/report.cpp`, `scd30/report.h`, `src/sensor.cpp`, `scd30/sensor.h`).

Machine integers are modelled as `Nat`/`Int`; the C `float` inputs to
`Reading`'s constructor are modelled as exact rationals (`ℚ`), with
`std::isnormal` modelled by the IEEE-754 single-precision normal range and
`std::lroundf` by round-half-away-from-zero.  C++ `String`/`std::string`
byte buffers are modelled as `List Char` (all generated payload text is
ASCII).
-/

namespace Scd30

/-! ## Reading (scd30/report.h) -/

/-- `Reading::TEMP_BITS`-derived constants (report.h lines 36-44). -/
def TEMP_DIV : Nat := 100
def TEMP_MUL : Nat := 100 / TEMP_DIV
def TEMP_MIN : Int := -8191
def TEMP_MAX : Int := 8191
def TEMP_NAN : Int := TEMP_MIN - 1

/-- `Reading::RHUM_*` constants (report.h lines 46-53). -/
def RHUM_DIV : Nat := 100
def RHUM_MUL : Nat := 100 / RHUM_DIV
def RHUM_MIN : Int := 0
def RHUM_MAX : Int := 16382
def RHUM_NAN : Nat := 16383

/-- `Reading::CO2_*` constants (report.h lines 55-62). -/
def CO2_DIV : Nat := 20
def CO2_MUL : Nat := 100 / CO2_DIV
def CO2_MIN : Int := 0
def CO2_MAX : Int := 1048574
def CO2_NAN : Nat := 1048575

/-- `Report::MAXIMUM_STORE_READINGS` (report.h line 108). -/
def MAXIMUM_STORE_READINGS : Nat := 360

/-- `Report::MAXIMUM_UPLOAD_BYTES` (report.h line 109). -/
def MAXIMUM_UPLOAD_BYTES : Nat := 640

/-- The epoch baseline `19035 * 86400` used by `Report::add` (report.cpp line 115). -/
def EPOCH_BASELINE : Nat := 19035 * 86400

/-- `std::lroundf` on an exact rational: round half away from zero. -/
def lroundQ (x : ℚ) : Int :=
  if 0 ≤ x then ⌊x + 1/2⌋ else -⌊-x + 1/2⌋

/-- `std::isnormal` for a single-precision float value, on the exact
rational it represents: nonzero and within the IEEE-754 binary32 normal
magnitude range. -/
def isnormalQ (x : ℚ) : Bool :=
  decide (x ≠ 0 ∧ (2 : ℚ) ^ (126 : ℕ) * |x| ≥ 1 ∧ |x| < (2 : ℚ) ^ (128 : ℕ))

/-- Temperature field encoding from the `Reading` constructor
(report.h lines 67-71): clamp `lroundf(x * TEMP_DIV)` to
`[TEMP_MIN, TEMP_MAX]` when normal, else the `TEMP_NAN` sentinel. -/
def encodeTemp (x : ℚ) : Int :=
  if isnormalQ x then max TEMP_MIN (min TEMP_MAX (lroundQ (x * (TEMP_DIV : ℚ)))) else TEMP_NAN

/-- Humidity field encoding (report.h lines 73-77). -/
def encodeRhum (x : ℚ) : Int :=
  if isnormalQ x then max RHUM_MIN (min RHUM_MAX (lroundQ (x * (RHUM_DIV : ℚ)))) else (RHUM_NAN : Int)

/-- CO₂ field encoding (report.h lines 79-83). -/
def encodeCo2 (x : ℚ) : Int :=
  if isnormalQ x then max CO2_MIN (min CO2_MAX (lroundQ (x * (CO2_DIV : ℚ)))) else (CO2_NAN : Int)

/-- The value represented by a stored temperature field (scale divisor 100). -/
def decodeTemp (v : Int) : ℚ := (v : ℚ) / (TEMP_DIV : ℚ)

/-- The value represented by a stored humidity field (scale divisor 100). -/
def decodeRhum (v : Nat) : ℚ := (v : ℚ) / (RHUM_DIV : ℚ)

/-- The value represented by a stored CO₂ field (scale divisor 20). -/
def decodeCo2 (v : Nat) : ℚ := (v : ℚ) / (CO2_DIV : ℚ)

/-- `struct Reading` (report.h lines 35-90): timestamp plus three
fixed-point bitfields (14/14/20 bits). -/
structure Reading where
  timestamp : Nat
  temperature_c : Int
  relative_humidity_pc : Nat
  co2_ppm : Nat
deriving DecidableEq, Repr

/-- The `Reading` constructor (report.h lines 64-84): encode each float
input to its fixed-point field.  The humidity and CO₂ clamps produce
nonnegative `long` values which are stored into unsigned bitfields. -/
def Reading.make (timestamp : Nat) (temperature_c relative_humidity_pc co2_ppm : ℚ) : Reading :=
  { timestamp := timestamp
    temperature_c := encodeTemp temperature_c
    relative_humidity_pc := (encodeRhum relative_humidity_pc).toNat
    co2_ppm := (encodeCo2 co2_ppm).toNat }

/-- Wellformedness of a stored `Reading`: field values fit their bitfields
and the timestamp fits `uint32_t`. -/
def Reading.WF (r : Reading) : Prop :=
  r.timestamp < 2 ^ 32 ∧ -8192 ≤ r.temperature_c ∧ r.temperature_c ≤ 8191 ∧
    r.relative_humidity_pc ≤ 16383 ∧ r.co2_ppm ≤ 1048575

instance (r : Reading) : Decidable r.WF := by
  unfold Reading.WF; infer_instance

/-! ## Decimal rendering (the `snprintf` formats used by `Report::upload`) -/

/-- Decimal digits of `n`, most significant first, prepended to `acc`
(the semantics of printf `%u`). -/
def decAux (n : Nat) (acc : List Char) : List Char :=
  if h : n < 10 then Char.ofNat (48 + n % 10) :: acc
  else decAux (n / 10) (Char.ofNat (48 + n % 10) :: acc)
termination_by n
decreasing_by exact Nat.div_lt_self (by omega) (by omega)

/-- printf `%u` of a nonnegative integer. -/
def decChars (n : Nat) : List Char := decAux n []

/-- printf `%02u`: at least two digits, zero-padded. -/
def pad2 (n : Nat) : List Char := if n < 10 then '0' :: decChars n else decChars n

/-- printf `%d` of an integer. -/
def intChars (i : Int) : List Char :=
  if i < 0 then '-' :: decChars i.natAbs else decChars i.natAbs

/-- C truncating (toward-zero) integer division, as in
`reading.temperature_c / Reading::TEMP_DIV`. -/
def ctdiv (t : Int) (d : Nat) : Int :=
  if 0 ≤ t then ((t.toNat / d : Nat) : Int) else -(((-t).toNat / d : Nat) : Int)

/-- The `&s=%u` segment piece (report.cpp line 179). -/
def tsText (ts : Nat) : List Char := "&s=".toList ++ decChars ts

/-- The `&t=%d.%02u` piece for a non-sentinel temperature field
(report.cpp lines 187-189). -/
def tempText (t : Int) : List Char :=
  "&t=".toList ++ intChars (ctdiv t TEMP_DIV) ++ '.' :: pad2 (t.natAbs % TEMP_DIV * TEMP_MUL)

/-- The `&h=%u.%02u` piece for a non-sentinel humidity field
(report.cpp lines 200-202). -/
def humText (h : Nat) : List Char :=
  "&h=".toList ++ decChars (h / RHUM_DIV) ++ '.' :: pad2 (h % RHUM_DIV * RHUM_MUL)

/-- The `&c=%u.%02u` piece for a non-sentinel CO₂ field
(report.cpp lines 214-216). -/
def co2Text (c : Nat) : List Char :=
  "&c=".toList ++ decChars (c / CO2_DIV) ++ '.' :: pad2 (c % CO2_DIV * CO2_MUL)

/-- The timestamp piece with the `snprintf` overflow guard
(`len >= (int)value.size()` with a 16-byte buffer, report.cpp lines 179-181):
`none` models the `break` out of the encoding loop. -/
def tsPieceOpt (ts : Nat) : Option (List Char) :=
  if 16 ≤ (tsText ts).length then none else some (tsText ts)

/-- The temperature piece: sentinel renders as an empty `&t=` field with no
guard, a numeric value is guarded by the 16-byte `snprintf` buffer
(report.cpp lines 186-197). -/
def tempPieceOpt (t : Int) : Option (List Char) :=
  if t = TEMP_NAN then some "&t=".toList
  else if 16 ≤ (tempText t).length then none
  else some (tempText t)

/-- The humidity piece (report.cpp lines 199-211). -/
def humPieceOpt (h : Nat) : Option (List Char) :=
  if h = RHUM_NAN then some "&h=".toList
  else if 16 ≤ (humText h).length then none
  else some (humText h)

/-- The CO₂ piece (report.cpp lines 213-224). -/
def co2PieceOpt (c : Nat) : Option (List Char) :=
  if c = CO2_NAN then some "&c=".toList
  else if 16 ≤ (co2Text c).length then none
  else some (co2Text c)

/-- The encoded segment (`text`) for one reading in `Report::upload`'s
SEND loop; `none` models the `break` taken when an `snprintf` overflows
its value buffer (report.cpp lines 172-224). -/
def readingText (r : Reading) : Option (List Char) := do
  let p1 ← tsPieceOpt r.timestamp
  let p2 ← tempPieceOpt r.temperature_c
  let p3 ← humPieceOpt r.relative_humidity_pc
  let p4 ← co2PieceOpt r.co2_ppm
  pure (p1 ++ (p2 ++ (p3 ++ p4)))

/-- The segment text of a wellformed reading (the value `readingText`
produces when no `snprintf` guard fires). -/
def segText (r : Reading) : List Char :=
  tsText r.timestamp ++
    ((if r.temperature_c = TEMP_NAN then "&t=".toList else tempText r.temperature_c) ++
      ((if r.relative_humidity_pc = RHUM_NAN then "&h=".toList else humText r.relative_humidity_pc) ++
        (if r.co2_ppm = CO2_NAN then "&c=".toList else co2Text r.co2_ppm)))

/-- Concatenation of the segment texts of a list of readings. -/
def segJoin : List Reading → List Char
  | [] => []
  | r :: rest => segText r ++ segJoin rest

/-! ## Report (report.cpp) -/

/-- `enum class UploadState` (report.h lines 93-99). -/
inductive UploadState
  | idle
  | connect
  | send
  | receive
  | cleanup
deriving DecidableEq, Repr

/-- The numeric value of an `UploadState` enumerator, for the ordered
comparison in `Report::config` (report.cpp line 104). -/
def UploadState.idx : UploadState → Nat
  | .idle => 0
  | .connect => 1
  | .send => 2
  | .receive => 3
  | .cleanup => 4

/-- The `Report` member state (report.h lines 116-133).  `connOpen` models
whether the `HTTPClient` session opened by `begin()` has been closed by
`end()`.  The C++ leaves `upload_ts_first_`/`upload_ts_last_`
uninitialized; they are `0` here. -/
structure ReportState where
  readings : List Reading
  enabled : Bool
  overflow : Bool
  threshold : Nat
  url : List Char
  username : List Char
  password : List Char
  sensor_name : List Char
  connOpen : Bool
  upstate : UploadState
  upload_ts_first : Nat
  upload_ts_last : Nat
deriving DecidableEq, Repr

/-- A default-constructed `Report` (member initializers, report.h). -/
def ReportState.init : ReportState :=
  { readings := [], enabled := false, overflow := false, threshold := 0,
    url := [], username := [], password := [], sensor_name := [],
    connOpen := false, upstate := .idle, upload_ts_first := 0, upload_ts_last := 0 }

/-- The outcome of the single HTTP exchange a cycle performs:
the `POST` status code and the response body read in RECEIVE. -/
structure HttpEnv where
  postResponse : Int
  responseBody : List Char
deriving DecidableEq, Repr

/-- Whether `Report::add`'s second rejection test fires: the buffer is
nonempty and its newest reading's timestamp is `>=` the new timestamp
(report.cpp lines 119-124). -/
def staleTs (rs : List Reading) (t : Nat) : Bool :=
  match rs.getLast? with
  | some r => decide (t ≤ r.timestamp)
  | none => false

/-- The eviction loop of `Report::add` (report.cpp lines 126-134):
`while (readings_.size() >= MAXIMUM_STORE_READINGS)` pop the front and
raise the overflow flag. -/
def evict (cap : Nat) : List Reading → Bool → List Reading × Bool
  | [], ov => ([], ov)
  | r :: rest, ov =>
    if cap ≤ rest.length + 1 then evict cap rest true else (r :: rest, ov)

/-- The accumulator of the SEND encoding loop: the payload built so far,
the number of readings included, and the first/last included timestamps
(report.cpp lines 156-237). -/
structure SendAcc where
  payload : List Char
  count : Nat
  first : Nat
  last : Nat
deriving DecidableEq, Repr

/-- The SEND encoding loop (report.cpp lines 172-237): walk the buffer
oldest-first; stop on an `snprintf` overflow, or — once at least one
reading is included — before a segment that would push the payload past
`cap`. -/
def sendLoop (cap : Nat) : List Reading → SendAcc → SendAcc
  | [], acc => acc
  | r :: rest, acc =>
    match readingText r with
    | none => acc
    | some text =>
      if 0 < acc.count ∧ cap < acc.payload.length + text.length then acc
      else
        sendLoop cap rest
          { payload := acc.payload ++ text
            count := acc.count + 1
            first := if acc.first = 0 then r.timestamp else acc.first
            last := r.timestamp }

/-- The credentials header of the upload payload:
`u=<username>&p=<password>&n=<sensor name>` (report.cpp lines 163-168). -/
def uploadHeader (s : ReportState) : List Char :=
  "u=".toList ++ s.username ++ "&p=".toList ++ s.password ++ "&n=".toList ++ s.sensor_name

/-- `Report::upload` (report.cpp lines 142-290): one step of the
`IDLE → CONNECT → SEND → RECEIVE → CLEANUP` machine. -/
def Report.upload (env : HttpEnv) (s : ReportState) (b : Bool) : ReportState :=
  match s.upstate with
  | .idle =>
    if b ∧ s.enabled = true ∧ s.threshold ≤ s.readings.length then
      { s with upstate := .connect }
    else s
  | .connect => { s with connOpen := true, upstate := .send }
  | .send =>
    let acc := sendLoop MAXIMUM_UPLOAD_BYTES s.readings ⟨uploadHeader s, 0, 0, 0⟩
    let s := { s with upload_ts_first := acc.first, upload_ts_last := acc.last }
    if acc.first = 0 then { s with upstate := .idle }
    else if env.postResponse = 200 then { s with upstate := .receive }
    else { s with upstate := .idle, connOpen := false }
  | .receive =>
    if env.responseBody = "OK\n".toList then
      { s with upstate := .cleanup, connOpen := false }
    else { s with upstate := .idle, connOpen := false }
  | .cleanup =>
    { s with
      readings := s.readings.dropWhile (fun r => decide (r.timestamp ≤ s.upload_ts_last))
      upstate := .idle }

/-- `Report::add` (report.cpp lines 114-140): reject pre-baseline or
non-increasing timestamps, evict while at capacity, append the encoded
reading, then give the upload machine an explicit begin. -/
def Report.add (env : HttpEnv) (s : ReportState) (timestamp : Nat)
    (temperature_c relative_humidity_pc co2_ppm : ℚ) : ReportState :=
  if timestamp < EPOCH_BASELINE then s
  else if staleTs s.readings timestamp then s
  else
    let p := evict MAXIMUM_STORE_READINGS s.readings s.overflow
    Report.upload env
      { s with
        readings := p.1 ++ [Reading.make timestamp temperature_c relative_humidity_pc co2_ppm]
        overflow := p.2 }
      true

/-- `Report::loop` (report.cpp lines 292-298): clear the overflow flag
when empty, otherwise advance the upload machine without a begin. -/
def Report.loop (env : HttpEnv) (s : ReportState) : ReportState :=
  if s.readings.isEmpty then { s with overflow := false } else Report.upload env s false

/-- The configuration values `Report::config` reads (report.cpp lines 49-54). -/
structure ReportConfig where
  report_enabled : Bool
  report_threshold : Nat
  report_url : List Char
  report_username : List Char
  report_password : List Char
  report_sensor_name : List Char
deriving DecidableEq, Repr

/-- The URL scheme test of `Report::config` (report.cpp lines 60-62):
`rfind(pat, 0) == 0` is a prefix test for `https://` or `http://`. -/
def hasUrlScheme (url : List Char) : Bool :=
  decide (url.take 8 = "https://".toList) || decide (url.take 7 = "http://".toList)

/-- `Report::config` (report.cpp lines 44-112): recompute the effective
enabled flag (fail closed), close the HTTP session when the machine was
strictly between CONNECT and CLEANUP, and return to IDLE.
(TLS client selection and HTTP client options have no modelled state.) -/
def Report.config (s : ReportState) (c : ReportConfig) : ReportState :=
  let enabled := c.report_enabled
  let enabled := if c.report_threshold = 0 then false else enabled
  let enabled := if c.report_url.isEmpty || !hasUrlScheme c.report_url then false else enabled
  let enabled := if c.report_username.isEmpty then false else enabled
  let enabled := if c.report_password.isEmpty then false else enabled
  let enabled := if c.report_sensor_name.isEmpty then false else enabled
  let connOpen :=
    if 1 < s.upstate.idx ∧ s.upstate.idx < 4 then false else s.connOpen
  { s with
    enabled := enabled, threshold := c.report_threshold, url := c.report_url,
    username := c.report_username, password := c.report_password,
    sensor_name := c.report_sensor_name, connOpen := connOpen, upstate := .idle }

/-- A sequence of `Report::add` calls (left to right), each input a
timestamp and the three float arguments. -/
def addSeq (env : HttpEnv) : ReportState → List (Nat × ℚ × ℚ × ℚ) → ReportState
  | s, [] => s
  | s, i :: rest => addSeq env (Report.add env s i.1 i.2.1 i.2.2.1 i.2.2.2) rest

/-- The `Reading` built from one `add` input. -/
def mkReading (i : Nat × ℚ × ℚ × ℚ) : Reading := Reading.make i.1 i.2.1 i.2.2.1 i.2.2.2

/-- The last `n` elements of a list. -/
def takeLast (l : List α) (n : Nat) : List α := l.drop (l.length - n)

/-! ## Sensor (sensor.cpp / scd30/sensor.h)

`enum Operation` follows sensor.h with the `CALIBRATE` member that
sensor.cpp uses; the header in the tree predates it, and the spec places
`CALIBRATE` between `CONFIG_AMBIENT_PRESSURE` and `TAKE_MEASUREMENT`. -/

/-- `enum Operation` (sensor.h lines 36-46, `NONE = 32`). -/
inductive Operation
  | soft_reset
  | read_firmware_version
  | config_automatic_calibration
  | config_temperature_offset
  | config_altitude_compensation
  | config_continuous_measurement
  | config_ambient_pressure
  | calibrate
  | take_measurement
  | none_
deriving DecidableEq, Repr

/-- The numeric value (bit position) of an `Operation`. -/
def opBit : Operation → Nat
  | .soft_reset => 0
  | .read_firmware_version => 1
  | .config_automatic_calibration => 2
  | .config_temperature_offset => 3
  | .config_altitude_compensation => 4
  | .config_continuous_measurement => 5
  | .config_ambient_pressure => 6
  | .calibrate => 7
  | .take_measurement => 8
  | .none_ => 32

/-- The `Operation` with a given numeric value (`static_cast<Operation>`). -/
def opOfNat : Nat → Operation
  | 0 => .soft_reset
  | 1 => .read_firmware_version
  | 2 => .config_automatic_calibration
  | 3 => .config_temperature_offset
  | 4 => .config_altitude_compensation
  | 5 => .config_continuous_measurement
  | 6 => .config_ambient_pressure
  | 7 => .calibrate
  | 8 => .take_measurement
  | _ => .none_

/-- `enum Measurement` (sensor.h lines 48-52). -/
inductive Measurement
  | idle
  | pending_
  | waiting
deriving DecidableEq, Repr

/-- A register transaction request issued to the modbus client. -/
inductive Request
  | read (address : Nat) (count : Nat)
  | write (address : Nat) (value : Nat)
deriving DecidableEq, Repr

/-- A completed register transaction result: register data from a read,
or a write acknowledgement (which also carries data). -/
inductive ModbusResult
  | readData (data : List Nat)
  | writeAck (data : List Nat)
deriving DecidableEq, Repr

/-- The `data()` of a completed response (`RegisterWriteResponse` derives
`RegisterDataResponse`, so both carry register data). -/
def ModbusResult.data : ModbusResult → List Nat
  | .readData d => d
  | .writeAck d => d

/-- The in-flight transaction handle `response_`: issued but not done,
or done with a result. -/
inductive Txn
  | issued (r : Request)
  | done (r : ModbusResult)
deriving DecidableEq, Repr

/-- Register addresses and timing constants (sensor.h lines 56-71). -/
def MODBUS_TIMEOUT_MS : Nat := 100
def RESET_PRE_DELAY_MS : Nat := 60000
def RESET_POST_DELAY_MS : Nat := 5000
def MEASUREMENT_TIMEOUT_MS : Nat := 30000
def FIRMWARE_VERSION_ADDRESS : Nat := 0x0020
def MEASUREMENT_INTERVAL_ADDRESS : Nat := 0x0025
def MEASUREMENT_DATA_ADDRESS : Nat := 0x0028
def SOFT_RESET_ADDRESS : Nat := 0x0034
def AMBIENT_PRESSURE_ADDRESS : Nat := 0x0036
def ALTITUDE_COMPENSATION_ADDRESS : Nat := 0x0038
def ASC_CONFIG_ADDRESS : Nat := 0x003A
def TEMPERATURE_OFFSET_ADDRESS : Nat := 0x003B
def FORCED_RECALIBRATION_ADDRESS : Nat := 0x0039

/-- The configuration values the sensor controller reads. -/
structure SensorConfig where
  sensor_automatic_calibration : Bool
  sensor_temperature_offset : Nat
  sensor_altitude_compensation : Nat
  sensor_measurement_interval : Nat
  sensor_ambient_pressure : Nat
  take_measurement_interval : Nat
deriving DecidableEq, Repr

/-- The environment of one `Sensor::loop` invocation: the wall clocks and
the data-ready pin. -/
structure SensorEnv where
  millis : Nat
  now : Nat
  ready : Bool
  cfg : SensorConfig
deriving DecidableEq, Repr

/-- Set a bit in a `std::bitset<32>` modelled as a mask. -/
def setBit (m i : Nat) : Nat := m ||| 2 ^ i

/-- Clear a bit in the mask. -/
def clearBit (m i : Nat) : Nat := m - (if m.testBit i then 2 ^ i else 0)

/-- The index of the least significant set bit (`ffs(m) - 1` for `m ≠ 0`). -/
def lsbIdx (m : Nat) : Nat :=
  if _h : m = 0 then 0
  else if m % 2 = 1 then 0
  else 1 + lsbIdx (m / 2)
termination_by m
decreasing_by exact Nat.div_lt_self (by omega) (by omega)

/-- `Sensor::config_operations_`: the five `CONFIG_*` kinds, set once in
the constructor (sensor.cpp lines 64-68). -/
def configOperationsMask : Nat :=
  setBit (setBit (setBit (setBit (setBit 0
    (opBit .config_automatic_calibration))
    (opBit .config_temperature_offset))
    (opBit .config_altitude_compensation))
    (opBit .config_continuous_measurement))
    (opBit .config_ambient_pressure)

/-- The `Sensor` member state (sensor.h lines 103-122).  The latest
decoded float readings are outside this embedding (IEEE-754 bit casts);
no claim depends on them. -/
structure SensorState where
  interval : Nat
  pending : Nat
  current : Operation
  response : Option Txn
  reset_start_ms : Nat
  reset_wait_ms : Nat
  reset_complete : Bool
  last_reading_s : Nat
  measurement_start_ms : Nat
  measurement_status : Measurement
  firmware_major : Nat
  firmware_minor : Nat
  calibration_ppm : Nat
deriving DecidableEq, Repr

/-- A freshly constructed `Sensor` (member initializers, sensor.h). -/
def SensorState.init : SensorState :=
  { interval := 0, pending := 0, current := .none_, response := none,
    reset_start_ms := 0, reset_wait_ms := 0, reset_complete := false,
    last_reading_s := 0, measurement_start_ms := 0, measurement_status := .idle,
    firmware_major := 0, firmware_minor := 0, calibration_ppm := 0 }

/-- `Sensor::automatic_calibration` (sensor.cpp lines 381-383). -/
def automatic_calibration (c : SensorConfig) : Nat :=
  if c.sensor_automatic_calibration then 1 else 0

/-- `Sensor::temperature_offset` (sensor.cpp lines 385-387):
clamp to `[0, 65535]` (the lower clamp is a no-op on unsigned values). -/
def temperature_offset (c : SensorConfig) : Nat :=
  min 65535 c.sensor_temperature_offset

/-- `Sensor::altitude_compensation` (sensor.cpp lines 389-391). -/
def altitude_compensation (c : SensorConfig) : Nat :=
  min 65535 c.sensor_altitude_compensation

/-- `Sensor::measurement_interval` (sensor.cpp lines 393-395):
clamp to `[2, 1800]`. -/
def measurement_interval (c : SensorConfig) : Nat :=
  max 2 (min 1800 c.sensor_measurement_interval)

/-- `Sensor::ambient_pressure` (sensor.cpp lines 397-405):
0 disables, otherwise clamp to `[700, 1200]`. -/
def ambient_pressure (c : SensorConfig) : Nat :=
  if c.sensor_ambient_pressure = 0 then 0 else max 700 (min 1200 c.sensor_ambient_pressure)

/-- `uint32_t` wraparound subtraction, as computed by
`::millis() - start_ms` on 32-bit unsigned values. -/
def wsub32 (a b : Nat) : Nat := (a + 2 ^ 32 - b % 2 ^ 32) % 2 ^ 32

/-- `Sensor::config` with a nonempty operation list restricts to kinds in
`config_operations_`; an empty list arms them all.  Both update the
measurement interval (sensor.cpp lines 78-92). -/
def Sensor.configOps (cfg : SensorConfig) (ops : List Operation) (s : SensorState) : SensorState :=
  let pending :=
    if ops.isEmpty then s.pending ||| configOperationsMask
    else ops.foldl
      (fun m op => if configOperationsMask.testBit (opBit op) then setBit m (opBit op) else m)
      s.pending
  { s with pending := pending, interval := min 255 cfg.take_measurement_interval }

/-- `Sensor::start` (sensor.cpp lines 73-76): arm the firmware-version
read and the full configuration set. -/
def Sensor.start (cfg : SensorConfig) (s : SensorState) : SensorState :=
  Sensor.configOps cfg [] { s with pending := setBit s.pending (opBit .read_firmware_version) }

/-- `Sensor::reset` (sensor.cpp lines 94-104): clear pending, arm
`SOFT_RESET`, drop the operation and transaction, rerun `start()`, and
invalidate measurement timing. -/
def Sensor.reset (env : SensorEnv) (s : SensorState) (wait_ms : Nat) : SensorState :=
  let s := { s with pending := setBit 0 (opBit .soft_reset), current := .none_, response := none }
  let s := Sensor.start env.cfg s
  { s with
    reset_start_ms := env.millis
    reset_wait_ms := wait_ms
    last_reading_s := 0
    measurement_status := .pending_ }

/-- `Sensor::update_config_register` (sensor.cpp lines 326-379): the
read-modify-write reconciliation step for one configuration register. -/
def update_config_register (env : SensorEnv) (s : SensorState)
    (address : Nat) (always_write : Bool) (cfg_value : Nat) : SensorState :=
  match s.response with
  | none => { s with response := some (.issued (.read address 1)) }
  | some (.issued _) => s
  | some (.done r) =>
    match r with
    | .writeAck d =>
      if d.length < 1 then Sensor.reset env s RESET_PRE_DELAY_MS
      else { s with response := none, current := .none_ }
    | .readData d =>
      if d.length < 1 then Sensor.reset env s RESET_PRE_DELAY_MS
      else if d.getD 0 0 = cfg_value ∧ always_write = false then
        { s with response := none, current := .none_ }
      else { s with response := some (.issued (.write address cfg_value)) }

/-- The body of one operation's `switch` case in `Sensor::loop`
(sensor.cpp lines 130-323).  The `TAKE_MEASUREMENT` success path omits
only the IEEE-754 register-pair decode and the hand-off to `Report::add`
(external to this state); its control flow and state updates are kept. -/
def runOp (env : SensorEnv) (s : SensorState) : SensorState :=
  match s.current with
  | .none_ => s
  | .soft_reset =>
    match s.response with
    | none =>
      if s.reset_wait_ms ≤ wsub32 env.millis s.reset_start_ms then
        { s with
          response := some (.issued (.write SOFT_RESET_ADDRESS 1))
          reset_complete := false }
      else s
    | some (.issued _) => s
    | some (.done r) =>
      if r.data.length < 1 ∨ r.data.getD 0 0 ≠ 1 then Sensor.reset env s RESET_PRE_DELAY_MS
      else if s.reset_complete = false then
        { s with reset_start_ms := env.millis, reset_complete := true }
      else if RESET_POST_DELAY_MS ≤ wsub32 env.millis s.reset_start_ms then
        { s with response := none, current := .none_, measurement_status := .idle }
      else s
  | .read_firmware_version =>
    match s.response with
    | none => { s with response := some (.issued (.read FIRMWARE_VERSION_ADDRESS 1)) }
    | some (.issued _) => s
    | some (.done r) =>
      if r.data.length < 1 then Sensor.reset env s RESET_PRE_DELAY_MS
      else
        { s with
          firmware_major := r.data.getD 0 0 / 256
          firmware_minor := r.data.getD 0 0 % 256
          response := none
          current := .none_ }
  | .config_automatic_calibration =>
    update_config_register env s ASC_CONFIG_ADDRESS false (automatic_calibration env.cfg)
  | .config_temperature_offset =>
    update_config_register env s TEMPERATURE_OFFSET_ADDRESS false (temperature_offset env.cfg)
  | .config_altitude_compensation =>
    update_config_register env s ALTITUDE_COMPENSATION_ADDRESS false (altitude_compensation env.cfg)
  | .config_continuous_measurement =>
    update_config_register env s MEASUREMENT_INTERVAL_ADDRESS false (measurement_interval env.cfg)
  | .config_ambient_pressure =>
    update_config_register env s AMBIENT_PRESSURE_ADDRESS true (ambient_pressure env.cfg)
  | .calibrate =>
    match s.response with
    | none => { s with response := some (.issued (.write FORCED_RECALIBRATION_ADDRESS s.calibration_ppm)) }
    | some (.issued _) => s
    | some (.done r) =>
      if r.data.length < 1 then Sensor.reset env s RESET_PRE_DELAY_MS
      else { s with response := none, current := .none_ }
  | .take_measurement =>
    match s.response with
    | none =>
      if env.ready then
        { s with response := some (.issued (.read MEASUREMENT_DATA_ADDRESS 6)) }
      else if s.measurement_status = .waiting then
        if MEASUREMENT_TIMEOUT_MS ≤ wsub32 env.millis s.measurement_start_ms then
          Sensor.reset env s RESET_PRE_DELAY_MS
        else s
      else { s with measurement_status := .waiting, measurement_start_ms := env.millis }
    | some (.issued _) => s
    | some (.done r) =>
      if r.data.length < 6 then Sensor.reset env s RESET_PRE_DELAY_MS
      else
        { s with
          last_reading_s := env.now
          measurement_status := .idle
          response := none
          current := .none_ }

/-- The measurement scheduling check at the top of `Sensor::loop`
(sensor.cpp lines 119-127). -/
def schedule (env : SensorEnv) (s : SensorState) : SensorState :=
  if s.measurement_status = .idle ∧ 0 < s.interval then
    if s.last_reading_s < env.now ∧ env.now % s.interval = 0 then
      { s with
        pending := setBit s.pending (opBit .take_measurement)
        measurement_status := .pending_ }
    else s
  else s

/-- One `Sensor::loop` invocation (sensor.cpp lines 116-324): schedule a
due measurement, then dispatch — from `NONE` the lowest-numbered pending
operation is selected and run in the same invocation (the `goto retry`). -/
def Sensor.loopStep (env : SensorEnv) (s : SensorState) : SensorState :=
  let s := schedule env s
  match s.current with
  | .none_ =>
    if s.pending ≠ 0 then
      let bit := lsbIdx s.pending
      runOp env { s with current := opOfNat bit, pending := clearBit s.pending bit }
    else s
  | _ => runOp env s

/-! ## Lemmas about `Report::upload` -/

/-- `Report::upload` never touches the stored readings outside CLEANUP. -/
lemma upload_readings_of_ne_cleanup (env : HttpEnv) (s : ReportState) (b : Bool)
    (h : s.upstate ≠ .cleanup) : (Report.upload env s b).readings = s.readings := by
  cases hs : s.upstate <;> simp [Report.upload, hs] at h ⊢ <;> split <;> simp_all <;> split <;> rfl

/-- `Report::upload` never touches the overflow flag. -/
lemma upload_overflow (env : HttpEnv) (s : ReportState) (b : Bool) :
    (Report.upload env s b).overflow = s.overflow := by
  cases hs : s.upstate <;> simp [Report.upload, hs] <;> split <;> try rfl
  all_goals split <;> rfl

/-- With reporting disabled and the machine idle, `upload` is a no-op. -/
lemma upload_disabled_idle (env : HttpEnv) (s : ReportState) (b : Bool)
    (h1 : s.upstate = .idle) (h2 : s.enabled = false) : Report.upload env s b = s := by
  simp [Report.upload, h1, h2]

/-- C8: a `Report::add` call with a timestamp below the epoch baseline, or
`≤` the newest stored reading's timestamp, is a no-op: the whole report
state (in particular the buffer) is unchanged. -/
theorem report_add_reject_noop (env : HttpEnv) (s : ReportState) (t : Nat) (a b c : ℚ)
    (h : t < EPOCH_BASELINE ∨ staleTs s.readings t = true) :
    Report.add env s t a b c = s := by
  rcases h with h | h
  · simp [Report.add, h]
  · unfold Report.add
    split
    · rfl
    · simp [h]

/-- Witness for C8: both rejection paths at concrete inputs. -/
theorem report_add_reject_noop_witness :
    Report.add ⟨200, []⟩ ReportState.init 5 0 0 0 = ReportState.init ∧
    Report.add ⟨200, []⟩
        { ReportState.init with readings := [Reading.make 1644624005 0 0 0] }
        1644624005 0 0 0 =
      { ReportState.init with readings := [Reading.make 1644624005 0 0 0] } :=
  ⟨report_add_reject_noop _ _ _ _ _ _ (Or.inl (by decide)),
   report_add_reject_noop _ _ _ _ _ _ (Or.inr (by decide))⟩

/-- C10: `Report::config` always returns the upload machine to IDLE,
leaves the buffered readings untouched, and — when an upload was in the
SEND or RECEIVE phase — closes the HTTP connection. -/
theorem report_config_resets_upload (s : ReportState) (c : ReportConfig) :
    (Report.config s c).upstate = .idle ∧
    (Report.config s c).readings = s.readings ∧
    ((s.upstate = .send ∨ s.upstate = .receive) → (Report.config s c).connOpen = false) := by
  refine ⟨rfl, rfl, fun h => ?_⟩
  rcases h with h | h <;> simp [Report.config, h, UploadState.idx]

/-- Witness for C10: a configuration change arriving mid-SEND. -/
theorem report_config_resets_upload_witness :
    (Report.config { ReportState.init with upstate := .send, connOpen := true }
        ⟨true, 1, "http://h".toList, "u".toList, "p".toList, "n".toList⟩).upstate = .idle ∧
    (Report.config { ReportState.init with upstate := .send, connOpen := true }
        ⟨true, 1, "http://h".toList, "u".toList, "p".toList, "n".toList⟩).readings =
      ({ ReportState.init with upstate := .send, connOpen := true } : ReportState).readings ∧
    (Report.config { ReportState.init with upstate := .send, connOpen := true }
        ⟨true, 1, "http://h".toList, "u".toList, "p".toList, "n".toList⟩).connOpen = false :=
  ⟨(report_config_resets_upload _ _).1, (report_config_resets_upload _ _).2.1,
   (report_config_resets_upload _ _).2.2 (Or.inl rfl)⟩

/-! ## Overflow flag (C7) -/

/-- Once the eviction loop has raised the flag it stays raised. -/
lemma evict_snd_of_true (cap : Nat) (rs : List Reading) :
    (evict cap rs true).2 = true := by
  induction rs with
  | nil => rfl
  | cons r rest ih =>
    unfold evict
    split
    · exact ih
    · rfl

/-- An eviction loop entered at capacity raises the overflow flag. -/
lemma evict_snd_of_full (cap : Nat) (rs : List Reading) (ov : Bool)
    (hcap : 0 < cap) (h : cap ≤ rs.length) : (evict cap rs ov).2 = true := by
  cases rs with
  | nil => simp at h; omega
  | cons r rest =>
    unfold evict
    rw [if_pos (by simpa using h)]
    exact evict_snd_of_true cap rest

/-- Below capacity the eviction loop does nothing. -/
lemma evict_of_lt (cap : Nat) (rs : List Reading) (ov : Bool)
    (h : rs.length < cap) : evict cap rs ov = (rs, ov) := by
  cases rs with
  | nil => rfl
  | cons r rest =>
    unfold evict
    rw [if_neg (by simp at h ⊢; omega)]

/-- C7: the overflow flag is raised exactly by evictions — an accepted
`add` at capacity sets it, any `add` below capacity leaves it unchanged,
and `Report::loop` clears it only when the buffer is empty. -/
theorem report_overflow_flag_lifecycle (env : HttpEnv) (s : ReportState)
    (t : Nat) (a b c : ℚ) :
    (MAXIMUM_STORE_READINGS ≤ s.readings.length → EPOCH_BASELINE ≤ t →
      staleTs s.readings t = false → (Report.add env s t a b c).overflow = true) ∧
    (s.readings.length < MAXIMUM_STORE_READINGS →
      (Report.add env s t a b c).overflow = s.overflow) ∧
    (Report.loop env s).overflow = (if s.readings.isEmpty then false else s.overflow) := by
  refine ⟨fun hfull hbase hst => ?_, fun hlt => ?_, ?_⟩
  · unfold Report.add
    rw [if_neg (by omega), if_neg (by simp [hst])]
    rw [upload_overflow]
    exact evict_snd_of_full _ _ _ (by decide) hfull
  · unfold Report.add
    split
    · rfl
    · split
      · rfl
      · rw [upload_overflow, evict_of_lt _ _ _ hlt]
  · unfold Report.loop
    split
    · simp_all
    · simp_all [upload_overflow]

/-- Witness for C7: a full 360-reading buffer overflows on add; an add to
an empty buffer leaves the flag down; `loop` on an empty buffer clears a
raised flag. -/
theorem report_overflow_flag_lifecycle_witness :
    (Report.add ⟨200, []⟩
        { ReportState.init with
          readings := List.replicate 360 (Reading.make 1644624000 0 0 0) }
        1644624001 0 0 0).overflow = true ∧
    (Report.add ⟨200, []⟩ ReportState.init 1644624001 0 0 0).overflow =
      ReportState.init.overflow ∧
    (Report.loop ⟨200, []⟩ { ReportState.init with overflow := true }).overflow = false := by
  refine ⟨(report_overflow_flag_lifecycle _ _ _ _ _ _).1 ?_
      (by decide) ?_, (report_overflow_flag_lifecycle _ _ _ _ _ _).2.1 (by decide), ?_⟩
  · show MAXIMUM_STORE_READINGS ≤ (List.replicate 360 (Reading.make 1644624000 0 0 0)).length
    rw [List.length_replicate]
    exact Nat.le_refl _
  · show staleTs (List.replicate 360 (Reading.make 1644624000 0 0 0)) 1644624001 = false
    rw [staleTs, List.getLast?_replicate]
    decide
  · have h := (report_overflow_flag_lifecycle ⟨200, []⟩
      { ReportState.init with overflow := true } 0 0 0 0).2.2
    simpa using h

/-! ## CLEANUP pruning (C4) -/

/-- On a strictly timestamp-sorted buffer, dropping the prefix with
timestamps `≤ L` removes exactly the readings with timestamp `≤ L`. -/
lemma dropWhile_ts_eq_filter (L : Nat) (l : List Reading)
    (h : List.Pairwise (fun a b => a.timestamp < b.timestamp) l) :
    l.dropWhile (fun r => decide (r.timestamp ≤ L)) =
      l.filter (fun r => decide (L < r.timestamp)) := by
  induction l with
  | nil => rfl
  | cons r rest ih =>
    rcases List.pairwise_cons.mp h with ⟨hr, hrest⟩
    by_cases hts : r.timestamp ≤ L
    · rw [List.dropWhile_cons_of_pos (by simpa using hts),
        List.filter_cons_of_neg (by simpa using hts)]
      exact ih hrest
    · rw [List.dropWhile_cons_of_neg (by simpa using hts),
        List.filter_cons_of_pos (by simpa using Nat.lt_of_not_le hts)]
      congr 1
      refine (List.filter_eq_self.mpr fun a ha => ?_).symm
      simp only [decide_eq_true_eq]
      exact Nat.lt_of_not_le fun hle => Nat.lt_irrefl _ (Nat.lt_of_lt_of_le
        (Nat.lt_of_not_le hts) (Nat.le_trans (Nat.le_of_lt (hr a ha)) hle))

/-- C4: the CLEANUP step removes exactly the buffered readings with
timestamp `≤` the batch's last included timestamp, keeps every reading
with a greater timestamp, and returns to IDLE. -/
theorem report_cleanup_prefix_prune (env : HttpEnv) (s : ReportState) (b : Bool)
    (h : s.upstate = .cleanup)
    (hsorted : List.Pairwise (fun a b => a.timestamp < b.timestamp) s.readings) :
    (Report.upload env s b).readings =
      s.readings.filter (fun r => decide (s.upload_ts_last < r.timestamp)) ∧
    (Report.upload env s b).upstate = .idle := by
  rw [Report.upload, h]
  exact ⟨dropWhile_ts_eq_filter _ _ hsorted, rfl⟩

/-- Witness for C4: a three-reading buffer pruned at the middle timestamp. -/
theorem report_cleanup_prefix_prune_witness :
    (Report.upload ⟨200, []⟩
        { ReportState.init with
          upstate := .cleanup
          upload_ts_last := 1644624001
          readings := [Reading.make 1644624000 0 0 0, Reading.make 1644624001 0 0 0,
            Reading.make 1644624002 0 0 0] }
        false).readings = [Reading.make 1644624002 0 0 0] ∧
    (Report.upload ⟨200, []⟩
        { ReportState.init with
          upstate := .cleanup
          upload_ts_last := 1644624001
          readings := [Reading.make 1644624000 0 0 0, Reading.make 1644624001 0 0 0,
            Reading.make 1644624002 0 0 0] }
        false).upstate = .idle := by
  have h := report_cleanup_prefix_prune ⟨200, []⟩
    { ReportState.init with
      upstate := .cleanup
      upload_ts_last := 1644624001
      readings := [Reading.make 1644624000 0 0 0, Reading.make 1644624001 0 0 0,
        Reading.make 1644624002 0 0 0] }
    false rfl (by decide)
  refine ⟨?_, h.2⟩
  rw [h.1]
  decide

/-! ## Upload failure atomicity (C3) -/

/-- C3: driving one upload cycle from IDLE, a SEND failure (non-200 or
transport error) or a RECEIVE failure (body not exactly `OK\n`) returns
the machine to IDLE with the buffered readings identical to those before
CONNECT was entered. -/
theorem report_upload_failure_atomic (env : HttpEnv) (s : ReportState)
    (h : s.upstate = .idle) :
    ((env.postResponse = 200 → False) →
      (Report.upload env (Report.upload env (Report.upload env s true) false) false).upstate
          = .idle ∧
      (Report.upload env (Report.upload env (Report.upload env s true) false) false).readings
          = s.readings) ∧
    ((env.responseBody = "OK\n".toList → False) →
      (Report.upload env (Report.upload env (Report.upload env
          (Report.upload env s true) false) false) false).upstate = .idle ∧
      (Report.upload env (Report.upload env (Report.upload env
          (Report.upload env s true) false) false) false).readings = s.readings) := by
  have idle_noop : ∀ u : ReportState, u.upstate = .idle → Report.upload env u false = u := by
    intro u hu
    rw [Report.upload.eq_def, hu]
    dsimp only
    rw [if_neg (by simp)]
  -- step 1: IDLE either refuses the begin or moves to CONNECT
  have hst1 : (Report.upload env s true).upstate = .idle ∨
      (Report.upload env s true).upstate = .connect := by
    rw [Report.upload.eq_def, h]
    dsimp only
    split
    · exact Or.inr rfl
    · exact Or.inl h
  have hrd1 : (Report.upload env s true).readings = s.readings :=
    upload_readings_of_ne_cleanup env s true (by rw [h]; intro hc; cases hc)
  -- step 2: CONNECT moves to SEND
  have hst2 : (Report.upload env (Report.upload env s true) false).upstate = .idle ∨
      (Report.upload env (Report.upload env s true) false).upstate = .send := by
    rcases hst1 with h1 | h1
    · rw [idle_noop _ h1]
      exact Or.inl h1
    · rw [Report.upload.eq_def, h1]
      exact Or.inr rfl
  have hrd2 : (Report.upload env (Report.upload env s true) false).readings = s.readings := by
    rw [upload_readings_of_ne_cleanup env _ false ?_, hrd1]
    rcases hst1 with h1 | h1 <;> rw [h1] <;> intro hc <;> cases hc
  -- step 3: SEND either fails (or encodes nothing) back to IDLE, or, only
  -- on HTTP 200, advances to RECEIVE
  have hst3 : (Report.upload env (Report.upload env (Report.upload env s true) false)
        false).upstate = .idle ∨
      ((Report.upload env (Report.upload env (Report.upload env s true) false)
        false).upstate = .receive ∧ env.postResponse = 200) := by
    rcases hst2 with h2 | h2
    · rw [idle_noop _ h2]
      exact Or.inl h2
    · rw [Report.upload.eq_def, h2]
      dsimp only
      split
      · exact Or.inl rfl
      · split
        · rename_i hpr
          exact Or.inr ⟨rfl, hpr⟩
        · exact Or.inl rfl
  have hrd3 : (Report.upload env (Report.upload env (Report.upload env s true) false)
      false).readings = s.readings := by
    rw [upload_readings_of_ne_cleanup env _ false ?_, hrd2]
    rcases hst2 with h2 | h2 <;> rw [h2] <;> intro hc <;> cases hc
  constructor
  · intro hfail
    rcases hst3 with h3 | h3
    · exact ⟨h3, hrd3⟩
    · exact absurd h3.2 hfail
  · -- step 4: RECEIVE with a wrong body returns to IDLE
    intro hbody
    have hst4 : (Report.upload env (Report.upload env (Report.upload env
        (Report.upload env s true) false) false) false).upstate = .idle := by
      rcases hst3 with h3 | h3
      · rw [idle_noop _ h3]
        exact h3
      · rw [Report.upload.eq_def, h3.1]
        dsimp only
        rw [if_neg fun hh => hbody hh]
    have hrd4 : (Report.upload env (Report.upload env (Report.upload env
        (Report.upload env s true) false) false) false).readings = s.readings := by
      rw [upload_readings_of_ne_cleanup env _ false ?_, hrd3]
      rcases hst3 with h3 | h3
      · rw [h3]
        intro hc
        cases hc
      · rw [h3.1]
        intro hc
        cases hc
    exact ⟨hst4, hrd4⟩

/-- Witness for C3: a cycle against a server returning HTTP 500, and one
returning 200 with a wrong acknowledgement body, both leave the two
buffered readings in place. -/
theorem report_upload_failure_atomic_witness :
    ((Report.upload ⟨500, []⟩ (Report.upload ⟨500, []⟩ (Report.upload ⟨500, []⟩
        { ReportState.init with
          enabled := true, threshold := 1,
          readings := [Reading.make 1644624000 0 0 0] } true) false) false).upstate = .idle ∧
     (Report.upload ⟨500, []⟩ (Report.upload ⟨500, []⟩ (Report.upload ⟨500, []⟩
        { ReportState.init with
          enabled := true, threshold := 1,
          readings := [Reading.make 1644624000 0 0 0] } true) false) false).readings =
       [Reading.make 1644624000 0 0 0]) ∧
    ((Report.upload ⟨200, "NO".toList⟩ (Report.upload ⟨200, "NO".toList⟩
        (Report.upload ⟨200, "NO".toList⟩ (Report.upload ⟨200, "NO".toList⟩
        { ReportState.init with
          enabled := true, threshold := 1,
          readings := [Reading.make 1644624000 0 0 0] } true) false) false) false).upstate
        = .idle ∧
     (Report.upload ⟨200, "NO".toList⟩ (Report.upload ⟨200, "NO".toList⟩
        (Report.upload ⟨200, "NO".toList⟩ (Report.upload ⟨200, "NO".toList⟩
        { ReportState.init with
          enabled := true, threshold := 1,
          readings := [Reading.make 1644624000 0 0 0] } true) false) false) false).readings =
       [Reading.make 1644624000 0 0 0]) :=
  ⟨(report_upload_failure_atomic ⟨500, []⟩ _ rfl).1 (by decide),
   (report_upload_failure_atomic ⟨200, "NO".toList⟩ _ rfl).2 (by decide)⟩

/-! ## Buffer invariant under add sequences (C1) -/

lemma takeLast_length (l : List α) (n : Nat) :
    (takeLast l n).length = min l.length n := by
  simp [takeLast]
  omega

lemma takeLast_subset (l : List α) (n : Nat) : ∀ a ∈ takeLast l n, a ∈ l :=
  fun a ha => (List.drop_sublist _ _).subset ha

/-- Appending one element to the source of a `takeLast n` window: the
window slides (dropping its head when already full). -/
lemma takeLast_snoc (q : List α) (x : α) (n : Nat) (hn : 0 < n) :
    takeLast (q ++ [x]) n =
      (if n ≤ q.length then (takeLast q n).tail else takeLast q n) ++ [x] := by
  unfold takeLast
  by_cases h : n ≤ q.length
  · rw [if_pos h]
    have hlen : q.length + 1 - n ≤ q.length := by omega
    rw [List.length_append, List.length_singleton,
      List.drop_append_of_le_length hlen, List.tail_drop]
    have hidx : q.length + 1 - n = q.length - n + 1 := by omega
    rw [hidx]
  · rw [if_neg h]
    have h1 : q.length + 1 - n = 0 := by omega
    have h2 : q.length - n = 0 := by omega
    rw [List.length_append, List.length_singleton, h1, h2]
    simp

/-- If every stored reading is older than `t`, the staleness test passes. -/
lemma staleTs_false_of_lt (rs : List Reading) (t : Nat)
    (h : ∀ r ∈ rs, r.timestamp < t) : staleTs rs t = false := by
  unfold staleTs
  cases hg : rs.getLast? with
  | none => rfl
  | some r =>
    have hr : r ∈ rs := List.mem_of_mem_getLast? hg
    simpa using h r hr

/-- The eviction loop entered exactly at capacity pops one reading. -/
lemma evict_fst_of_eq (cap : Nat) (rs : List Reading) (ov : Bool)
    (hcap : 0 < cap) (h : rs.length = cap) : (evict cap rs ov).1 = rs.tail := by
  cases rs with
  | nil => simp at h; omega
  | cons r rest =>
    unfold evict
    rw [if_pos (by simp at h ⊢; omega)]
    have hlt : rest.length < cap := by simp at h; omega
    rw [evict_of_lt _ _ _ hlt]
    rfl

/-- One accepted `add` on a disabled report turns a `takeLast` window over
`q` into the window over `q ++ [new reading]`. -/
lemma add_disabled_spec (env : HttpEnv) (s : ReportState) (q : List Reading)
    (i : Nat × ℚ × ℚ × ℚ)
    (hen : s.enabled = false) (hup : s.upstate = .idle)
    (hrd : s.readings = takeLast q MAXIMUM_STORE_READINGS)
    (hbase : EPOCH_BASELINE ≤ i.1)
    (hlt : ∀ r ∈ q, r.timestamp < i.1) :
    (Report.add env s i.1 i.2.1 i.2.2.1 i.2.2.2).enabled = false ∧
    (Report.add env s i.1 i.2.1 i.2.2.1 i.2.2.2).upstate = .idle ∧
    (Report.add env s i.1 i.2.1 i.2.2.1 i.2.2.2).readings =
      takeLast (q ++ [mkReading i]) MAXIMUM_STORE_READINGS := by
  have key : ∀ u : ReportState, u.enabled = false → u.upstate = .idle →
      (Report.upload env u true).enabled = false ∧
      (Report.upload env u true).upstate = .idle ∧
      (Report.upload env u true).readings = u.readings := by
    intro u h1 h2
    rw [upload_disabled_idle env u true h2 h1]
    exact ⟨h1, h2, rfl⟩
  have hstale : staleTs s.readings i.1 = false := by
    rw [hrd]
    exact staleTs_false_of_lt _ _ fun r hr => hlt r (takeLast_subset _ _ r hr)
  unfold Report.add
  rw [if_neg (by omega), if_neg (by simp [hstale])]
  dsimp only
  refine ⟨?_, ?_, ?_⟩
  · exact (key _ (by exact hen) (by exact hup)).1
  · exact (key _ (by exact hen) (by exact hup)).2.1
  rw [(key _ (by exact hen) (by exact hup)).2.2]
  show (evict MAXIMUM_STORE_READINGS s.readings s.overflow).1 ++ [_] = _
  rw [takeLast_snoc q (mkReading i) MAXIMUM_STORE_READINGS (by decide), hrd]
  by_cases hfull : MAXIMUM_STORE_READINGS ≤ q.length
  · rw [if_pos hfull, evict_fst_of_eq _ _ _ (by decide) (by rw [takeLast_length]; omega)]
    simp only [mkReading]
  · rw [if_neg hfull, evict_of_lt _ _ _ (by rw [takeLast_length]; omega)]
    simp only [mkReading]

/-- Folding a strictly increasing, post-baseline input sequence into a
disabled report keeps the buffer equal to the `takeLast` window of all
readings produced so far. -/
lemma addSeq_disabled_spec (env : HttpEnv) :
    ∀ (inputs : List (Nat × ℚ × ℚ × ℚ)) (s : ReportState) (q : List Reading),
      s.enabled = false → s.upstate = .idle →
      s.readings = takeLast q MAXIMUM_STORE_READINGS →
      (∀ i ∈ inputs, EPOCH_BASELINE ≤ i.1) →
      List.Pairwise (fun a b : Nat × ℚ × ℚ × ℚ => a.1 < b.1) inputs →
      (∀ r ∈ q, ∀ i ∈ inputs, r.timestamp < i.1) →
      (addSeq env s inputs).enabled = false ∧ (addSeq env s inputs).upstate = .idle ∧
      (addSeq env s inputs).readings =
        takeLast (q ++ inputs.map mkReading) MAXIMUM_STORE_READINGS := by
  intro inputs
  induction inputs with
  | nil =>
    intro s q hen hup hrd _ _ _
    exact ⟨hen, hup, by simpa using hrd⟩
  | cons i rest ih =>
    intro s q hen hup hrd hbase hmono hq
    rcases List.pairwise_cons.mp hmono with ⟨hi, hrest⟩
    have hstep := add_disabled_spec env s q i hen hup hrd
      (hbase i (List.mem_cons_self i rest))
      (fun r hr => hq r hr i (List.mem_cons_self i rest))
    have hq2 : ∀ r ∈ q ++ [mkReading i], ∀ j ∈ rest, r.timestamp < j.1 := by
      intro r hr j hj
      rcases List.mem_append.mp hr with hr | hr
      · exact hq r hr j (List.mem_cons_of_mem i hj)
      · have hreq : r = mkReading i := by simpa using hr
        subst hreq
        show i.1 < j.1
        exact hi j hj
    have happ := ih (Report.add env s i.1 i.2.1 i.2.2.1 i.2.2.2) (q ++ [mkReading i])
      hstep.1 hstep.2.1 hstep.2.2
      (fun j hj => hbase j (List.mem_cons_of_mem i hj)) hrest hq2
    refine ⟨happ.1, happ.2.1, ?_⟩
    show (addSeq env (Report.add env s i.1 i.2.1 i.2.2.1 i.2.2.2) rest).readings = _
    rw [happ.2.2, List.map_cons]
    congr 1
    simp

/-- C1: for every sequence of `Report::add` calls with strictly increasing
timestamps at or above the epoch baseline (on a freshly constructed,
unconfigured report), the buffer never exceeds `MAXIMUM_STORE_READINGS`,
and afterwards holds exactly the encoded most recent
`min(N, capacity)` readings, in timestamp order (FIFO eviction). -/
theorem report_add_sequence_bounded_fifo (env : HttpEnv)
    (inputs : List (Nat × ℚ × ℚ × ℚ))
    (hbase : ∀ i ∈ inputs, EPOCH_BASELINE ≤ i.1)
    (hmono : List.Pairwise (fun a b : Nat × ℚ × ℚ × ℚ => a.1 < b.1) inputs) :
    (addSeq env ReportState.init inputs).readings.length ≤ MAXIMUM_STORE_READINGS ∧
    (addSeq env ReportState.init inputs).readings.length =
      min inputs.length MAXIMUM_STORE_READINGS ∧
    (addSeq env ReportState.init inputs).readings =
      takeLast (inputs.map mkReading) MAXIMUM_STORE_READINGS ∧
    List.Pairwise (fun a b : Reading => a.timestamp < b.timestamp)
      (addSeq env ReportState.init inputs).readings := by
  obtain ⟨h1, h2, h3⟩ := addSeq_disabled_spec env inputs ReportState.init [] rfl rfl rfl
    hbase hmono (by intro r hr; cases hr)
  simp only [List.nil_append] at h3
  have hsorted : List.Pairwise (fun a b : Reading => a.timestamp < b.timestamp)
      (inputs.map mkReading) := by
    rw [List.pairwise_map]
    exact hmono.imp fun {a b} hab => hab
  refine ⟨?_, ?_, h3, ?_⟩
  · rw [h3, takeLast_length]
    simp
  · rw [h3, takeLast_length, List.length_map]
  · rw [h3]
    exact hsorted.sublist (List.drop_sublist _ _)


/-- Witness for C1: two increasing post-baseline adds land both readings
in order. -/
theorem report_add_sequence_bounded_fifo_witness :
    (addSeq ⟨200, []⟩ ReportState.init
        [(1644624000, 1, 2, 3), (1644624005, 4, 5, 6)]).readings.length ≤
      MAXIMUM_STORE_READINGS ∧
    (addSeq ⟨200, []⟩ ReportState.init
        [(1644624000, 1, 2, 3), (1644624005, 4, 5, 6)]).readings.length =
      min ([(1644624000, (1 : ℚ), (2 : ℚ), (3 : ℚ)), (1644624005, 4, 5, 6)]).length
        MAXIMUM_STORE_READINGS ∧
    (addSeq ⟨200, []⟩ ReportState.init
        [(1644624000, 1, 2, 3), (1644624005, 4, 5, 6)]).readings =
      takeLast ([(1644624000, (1 : ℚ), (2 : ℚ), (3 : ℚ)), (1644624005, 4, 5, 6)].map mkReading)
        MAXIMUM_STORE_READINGS ∧
    List.Pairwise (fun a b : Reading => a.timestamp < b.timestamp)
      (addSeq ⟨200, []⟩ ReportState.init
        [(1644624000, 1, 2, 3), (1644624005, 4, 5, 6)]).readings :=
  report_add_sequence_bounded_fifo ⟨200, []⟩ _
    (by intro i hi; fin_cases hi <;> decide) (by decide)

/-! ## Sensor lemmas (C5, C6) -/

lemma schedule_current (env : SensorEnv) (s : SensorState) :
    (schedule env s).current = s.current := by
  unfold schedule
  split
  · split <;> rfl
  · rfl

lemma schedule_response (env : SensorEnv) (s : SensorState) :
    (schedule env s).response = s.response := by
  unfold schedule
  split
  · split <;> rfl
  · rfl

/-- With an operation in flight, `Sensor::loop` runs that operation's
branch after the scheduling check. -/
lemma loopStep_eq_runOp (env : SensorEnv) (s : SensorState)
    (h : s.current ≠ .none_) :
    Sensor.loopStep env s = runOp env (schedule env s) := by
  unfold Sensor.loopStep
  dsimp only
  cases hcs : (schedule env s).current
  case none_ => exact absurd ((schedule_current env s).symm.trans hcs) h
  all_goals rfl

/-- The state fields `Sensor::reset` establishes: pending = soft-reset +
firmware read + the full configuration set, no current operation, no
in-flight transaction. -/
lemma reset_fields (env : SensorEnv) (s : SensorState) (w : Nat) :
    (Sensor.reset env s w).pending =
      setBit (setBit configOperationsMask (opBit .read_firmware_version)) (opBit .soft_reset) ∧
    (Sensor.reset env s w).current = .none_ ∧
    (Sensor.reset env s w).response = none := by
  unfold Sensor.reset Sensor.start Sensor.configOps
  refine ⟨?_, rfl, rfl⟩
  dsimp only
  decide

/-- `Sensor::update_config_register` on a completed 1-register read:
finish without a write exactly on a value match of a non-always-write
operation, otherwise issue the write. -/
lemma ucr_done_read (env : SensorEnv) (s : SensorState) (addr : Nat)
    (aw : Bool) (cfgv v : Nat)
    (hresp : s.response = some (.done (.readData [v]))) :
    update_config_register env s addr aw cfgv =
      (if v = cfgv ∧ aw = false then { s with response := none, current := .none_ }
       else { s with response := some (.issued (.write addr cfgv)) }) := by
  unfold update_config_register
  rw [hresp]
  dsimp only
  rw [if_neg (by simp)]
  simp only [List.getD_cons_zero]

/-- `Sensor::loop` for a configuration operation whose 1-register read
completed: the read-modify-write outcome as a single conditional. -/
lemma loopStep_ucr (env : SensorEnv) (s : SensorState) (v addr : Nat) (aw : Bool) (cfgv : Nat)
    (hresp : s.response = some (.done (.readData [v])))
    (hcur : s.current ≠ .none_)
    (heq : runOp env (schedule env s) = update_config_register env (schedule env s) addr aw cfgv) :
    Sensor.loopStep env s =
      (if v = cfgv ∧ aw = false
       then { schedule env s with response := none, current := .none_ }
       else { schedule env s with response := some (.issued (.write addr cfgv)) }) := by
  rw [loopStep_eq_runOp env s hcur, heq,
    ucr_done_read env _ _ _ _ v ((schedule_response env s).trans hresp)]

/-- C5 (amended): a register read completing with 0 registers during
`READ_FIRMWARE_VERSION` invokes `Sensor::reset`; afterwards the pending
set is the full configuration set plus the firmware-version read plus the
soft-reset operation, the current operation is `NONE`, and the in-flight
transaction is cleared. -/
theorem sensor_read_firmware_failure_resets (env : SensorEnv) (s : SensorState) (d : List Nat)
    (hcur : s.current = .read_firmware_version)
    (hresp : s.response = some (.done (.readData d)))
    (hlen : d.length = 0) :
    (Sensor.loopStep env s).pending =
      setBit (setBit configOperationsMask (opBit .read_firmware_version)) (opBit .soft_reset) ∧
    (Sensor.loopStep env s).current = .none_ ∧
    (Sensor.loopStep env s).response = none := by
  rw [loopStep_eq_runOp env s (by simp [hcur]),
    runOp.eq_def, schedule_current env s, hcur]
  dsimp only [ModbusResult.data]
  rw [schedule_response env s, hresp]
  dsimp only [ModbusResult.data]
  rw [if_pos (by omega)]
  exact reset_fields env _ _

/-- Counterexample for C5 as stated: at a concrete 0-register firmware
read the pending set after the reset is not the configuration set plus
the firmware-version read — the soft-reset operation is pending too. -/
theorem sensor_reset_pending_counterexample :
    (Sensor.loopStep ⟨0, 0, false, ⟨false, 0, 0, 0, 0, 0⟩⟩
        { SensorState.init with
          current := .read_firmware_version
          response := some (.done (.readData [])) }).pending ≠
      setBit configOperationsMask (opBit .read_firmware_version) ∧
    Nat.testBit (Sensor.loopStep ⟨0, 0, false, ⟨false, 0, 0, 0, 0, 0⟩⟩
        { SensorState.init with
          current := .read_firmware_version
          response := some (.done (.readData [])) }).pending (opBit .soft_reset) = true := by
  decide

/-- Witness for C5 (amended): the concrete scenario, now with the
soft-reset operation accounted for. -/
theorem sensor_read_firmware_failure_resets_witness :
    (Sensor.loopStep ⟨0, 0, false, ⟨false, 0, 0, 0, 0, 0⟩⟩
        { SensorState.init with
          current := .read_firmware_version
          response := some (.done (.readData [])) }).pending =
      setBit (setBit configOperationsMask (opBit .read_firmware_version)) (opBit .soft_reset) ∧
    (Sensor.loopStep ⟨0, 0, false, ⟨false, 0, 0, 0, 0, 0⟩⟩
        { SensorState.init with
          current := .read_firmware_version
          response := some (.done (.readData [])) }).current = .none_ ∧
    (Sensor.loopStep ⟨0, 0, false, ⟨false, 0, 0, 0, 0, 0⟩⟩
        { SensorState.init with
          current := .read_firmware_version
          response := some (.done (.readData [])) }).response = none :=
  sensor_read_firmware_failure_resets _ _ [] rfl rfl rfl

/-- C6: on a completed configuration-register read,
`CONFIG_AMBIENT_PRESSURE` always issues the write (even on a value
match), while every other `CONFIG_*` operation writes only on a mismatch
and finishes without a write on a match. -/
theorem sensor_config_register_write_policy (env : SensorEnv) (s : SensorState) (v : Nat)
    (hresp : s.response = some (.done (.readData [v]))) :
    (s.current = .config_ambient_pressure →
      (Sensor.loopStep env s).response =
        some (.issued (.write AMBIENT_PRESSURE_ADDRESS (ambient_pressure env.cfg))) ∧
      (Sensor.loopStep env s).current = s.current) ∧
    (s.current = .config_automatic_calibration → v = automatic_calibration env.cfg →
      (Sensor.loopStep env s).response = none ∧ (Sensor.loopStep env s).current = .none_) ∧
    (s.current = .config_automatic_calibration → v ≠ automatic_calibration env.cfg →
      (Sensor.loopStep env s).response =
        some (.issued (.write ASC_CONFIG_ADDRESS (automatic_calibration env.cfg)))) ∧
    (s.current = .config_temperature_offset → v = temperature_offset env.cfg →
      (Sensor.loopStep env s).response = none ∧ (Sensor.loopStep env s).current = .none_) ∧
    (s.current = .config_temperature_offset → v ≠ temperature_offset env.cfg →
      (Sensor.loopStep env s).response =
        some (.issued (.write TEMPERATURE_OFFSET_ADDRESS (temperature_offset env.cfg)))) ∧
    (s.current = .config_altitude_compensation → v = altitude_compensation env.cfg →
      (Sensor.loopStep env s).response = none ∧ (Sensor.loopStep env s).current = .none_) ∧
    (s.current = .config_altitude_compensation → v ≠ altitude_compensation env.cfg →
      (Sensor.loopStep env s).response =
        some (.issued (.write ALTITUDE_COMPENSATION_ADDRESS (altitude_compensation env.cfg)))) ∧
    (s.current = .config_continuous_measurement → v = measurement_interval env.cfg →
      (Sensor.loopStep env s).response = none ∧ (Sensor.loopStep env s).current = .none_) ∧
    (s.current = .config_continuous_measurement → v ≠ measurement_interval env.cfg →
      (Sensor.loopStep env s).response =
        some (.issued (.write MEASUREMENT_INTERVAL_ADDRESS (measurement_interval env.cfg)))) := by
  refine ⟨fun hcur => ?_, fun hcur hv => ?_, fun hcur hv => ?_, fun hcur hv => ?_,
    fun hcur hv => ?_, fun hcur hv => ?_, fun hcur hv => ?_, fun hcur hv => ?_,
    fun hcur hv => ?_⟩
  · rw [loopStep_ucr env s v AMBIENT_PRESSURE_ADDRESS true (ambient_pressure env.cfg) hresp
      (by simp [hcur]) (by rw [runOp.eq_def, schedule_current env s, hcur])]
    rw [if_neg (by simp)]
    exact ⟨rfl, schedule_current env s⟩
  · rw [loopStep_ucr env s v ASC_CONFIG_ADDRESS false (automatic_calibration env.cfg) hresp
      (by simp [hcur]) (by rw [runOp.eq_def, schedule_current env s, hcur])]
    rw [if_pos ⟨hv, rfl⟩]
    exact ⟨rfl, rfl⟩
  · rw [loopStep_ucr env s v ASC_CONFIG_ADDRESS false (automatic_calibration env.cfg) hresp
      (by simp [hcur]) (by rw [runOp.eq_def, schedule_current env s, hcur])]
    rw [if_neg (by simp [hv])]
  · rw [loopStep_ucr env s v TEMPERATURE_OFFSET_ADDRESS false (temperature_offset env.cfg) hresp
      (by simp [hcur]) (by rw [runOp.eq_def, schedule_current env s, hcur])]
    rw [if_pos ⟨hv, rfl⟩]
    exact ⟨rfl, rfl⟩
  · rw [loopStep_ucr env s v TEMPERATURE_OFFSET_ADDRESS false (temperature_offset env.cfg) hresp
      (by simp [hcur]) (by rw [runOp.eq_def, schedule_current env s, hcur])]
    rw [if_neg (by simp [hv])]
  · rw [loopStep_ucr env s v ALTITUDE_COMPENSATION_ADDRESS false (altitude_compensation env.cfg)
      hresp (by simp [hcur]) (by rw [runOp.eq_def, schedule_current env s, hcur])]
    rw [if_pos ⟨hv, rfl⟩]
    exact ⟨rfl, rfl⟩
  · rw [loopStep_ucr env s v ALTITUDE_COMPENSATION_ADDRESS false (altitude_compensation env.cfg)
      hresp (by simp [hcur]) (by rw [runOp.eq_def, schedule_current env s, hcur])]
    rw [if_neg (by simp [hv])]
  · rw [loopStep_ucr env s v MEASUREMENT_INTERVAL_ADDRESS false (measurement_interval env.cfg)
      hresp (by simp [hcur]) (by rw [runOp.eq_def, schedule_current env s, hcur])]
    rw [if_pos ⟨hv, rfl⟩]
    exact ⟨rfl, rfl⟩
  · rw [loopStep_ucr env s v MEASUREMENT_INTERVAL_ADDRESS false (measurement_interval env.cfg)
      hresp (by simp [hcur]) (by rw [runOp.eq_def, schedule_current env s, hcur])]
    rw [if_neg (by simp [hv])]

/-- Witness for C6: ambient pressure 950 mbar already in the register
still issues the write; a matching altitude compensation issues none. -/
theorem sensor_config_register_write_policy_witness :
    (Sensor.loopStep ⟨0, 0, false, ⟨false, 0, 100, 0, 950, 0⟩⟩
        { SensorState.init with
          current := .config_ambient_pressure
          response := some (.done (.readData [950])) }).response =
      some (.issued (.write AMBIENT_PRESSURE_ADDRESS 950)) ∧
    (Sensor.loopStep ⟨0, 0, false, ⟨false, 0, 100, 0, 950, 0⟩⟩
        { SensorState.init with
          current := .config_altitude_compensation
          response := some (.done (.readData [100])) }).response = none ∧
    (Sensor.loopStep ⟨0, 0, false, ⟨false, 0, 100, 0, 950, 0⟩⟩
        { SensorState.init with
          current := .config_altitude_compensation
          response := some (.done (.readData [100])) }).current = .none_ :=
  ⟨(sensor_config_register_write_policy ⟨0, 0, false, ⟨false, 0, 100, 0, 950, 0⟩⟩
      { SensorState.init with
        current := .config_ambient_pressure
        response := some (.done (.readData [950])) } 950 rfl).1 rfl |>.1,
   ((sensor_config_register_write_policy ⟨0, 0, false, ⟨false, 0, 100, 0, 950, 0⟩⟩
      { SensorState.init with
        current := .config_altitude_compensation
        response := some (.done (.readData [100])) } 100 rfl).2.2.2.2.2.1 rfl (by decide)).1,
   ((sensor_config_register_write_policy ⟨0, 0, false, ⟨false, 0, 100, 0, 950, 0⟩⟩
      { SensorState.init with
        current := .config_altitude_compensation
        response := some (.done (.readData [100])) } 100 rfl).2.2.2.2.2.1 rfl (by decide)).2⟩

/-! ## Fixed-point round trip (C9) -/

lemma floor_half : ⌊(1 / 2 : ℚ)⌋ = 0 := by
  rw [Int.floor_eq_zero_iff]
  constructor <;> norm_num

/-- Round-half-away-from-zero is within half a unit of its argument. -/
lemma lroundQ_sub_abs_le (y : ℚ) : |(lroundQ y : ℚ) - y| ≤ 1 / 2 := by
  unfold lroundQ
  by_cases h0 : 0 ≤ y
  · rw [if_pos h0, abs_le]
    have h1 : ((⌊y + 1 / 2⌋ : ℤ) : ℚ) ≤ y + 1 / 2 := Int.floor_le _
    have h2 : y + 1 / 2 - 1 < ((⌊y + 1 / 2⌋ : ℤ) : ℚ) := Int.sub_one_lt_floor _
    constructor <;> linarith
  · rw [if_neg h0, abs_le]
    have h1 : ((⌊-y + 1 / 2⌋ : ℤ) : ℚ) ≤ -y + 1 / 2 := Int.floor_le _
    have h2 : -y + 1 / 2 - 1 < ((⌊-y + 1 / 2⌋ : ℤ) : ℚ) := Int.sub_one_lt_floor _
    push_cast
    constructor <;> linarith

lemma lroundQ_le_of_le (y : ℚ) (M : Int) (h : y ≤ (M : ℚ)) : lroundQ y ≤ M := by
  unfold lroundQ
  by_cases h0 : 0 ≤ y
  · rw [if_pos h0]
    have : ⌊y + 1 / 2⌋ ≤ ⌊(M : ℚ) + 1 / 2⌋ := Int.floor_le_floor (by linarith)
    rwa [Int.floor_int_add, floor_half, add_zero] at this
  · rw [if_neg h0]
    have h2 : -M ≤ ⌊-y + 1 / 2⌋ := Int.le_floor.mpr (by push_cast; linarith)
    omega

lemma le_lroundQ_of_le (y : ℚ) (M : Int) (h : (M : ℚ) ≤ y) : M ≤ lroundQ y := by
  unfold lroundQ
  by_cases h0 : 0 ≤ y
  · rw [if_pos h0]
    exact Int.le_floor.mpr (by linarith)
  · rw [if_neg h0]
    have h2 : ⌊-y + 1 / 2⌋ ≤ -M := Int.floor_le_iff.mpr (by push_cast; linarith)
    omega

/-- An in-range encode/decode round trip is within the field resolution
`1/d`. -/
lemma clamp_roundtrip (x : ℚ) (lo hi : Int) (d : Nat) (hd : 0 < d)
    (hlo : (lo : ℚ) ≤ x * d) (hhi : x * d ≤ (hi : ℚ)) :
    |((max lo (min hi (lroundQ (x * (d : ℚ)))) : Int) : ℚ) / d - x| ≤ 1 / d := by
  have hdq : (0 : ℚ) < (d : ℚ) := by exact_mod_cast hd
  have h1 : lo ≤ lroundQ (x * (d : ℚ)) := le_lroundQ_of_le _ _ hlo
  have h2 : lroundQ (x * (d : ℚ)) ≤ hi := lroundQ_le_of_le _ _ hhi
  rw [min_eq_right h2, max_eq_right h1]
  have hr := lroundQ_sub_abs_le (x * (d : ℚ))
  have hx : ((lroundQ (x * (d : ℚ)) : Int) : ℚ) / d - x =
      (((lroundQ (x * (d : ℚ)) : Int) : ℚ) - x * d) / d := by
    field_simp
    ring
  rw [hx, abs_div, abs_of_pos hdq, div_le_div_iff_of_pos_right hdq]
  linarith

/-- Below-range inputs clamp to the field minimum. -/
lemma clamp_lo (x : ℚ) (lo hi : Int) (d : Nat) (hlohi : lo ≤ hi)
    (h : x * d ≤ (lo : ℚ)) :
    max lo (min hi (lroundQ (x * (d : ℚ)))) = lo := by
  have h2 : lroundQ (x * (d : ℚ)) ≤ lo := lroundQ_le_of_le _ _ h
  rw [min_eq_right (le_trans h2 hlohi), max_eq_left h2]

/-- Above-range inputs clamp to the field maximum. -/
lemma clamp_hi (x : ℚ) (lo hi : Int) (d : Nat) (hlohi : lo ≤ hi)
    (h : (hi : ℚ) ≤ x * d) :
    max lo (min hi (lroundQ (x * (d : ℚ)))) = hi := by
  have h2 : hi ≤ lroundQ (x * (d : ℚ)) := le_lroundQ_of_le _ _ h
  rw [min_eq_left h2, max_eq_right hlohi]

lemma toNat_cast_div (e : Int) (he : 0 ≤ e) (d : Nat) :
    ((e.toNat : ℚ)) / (d : ℚ) = ((e : ℚ)) / (d : ℚ) := by
  congr 1
  exact_mod_cast congrArg (fun z : Int => (z : ℚ)) (Int.toNat_of_nonneg he)

/-- Counterexample for C9 as stated: the in-range finite input `0` does
not round-trip — `std::isnormal(0.0f)` is false, so the constructor
stores the `TEMP_NAN` sentinel (and likewise for the other fields). -/
theorem reading_roundtrip_counterexample :
    (TEMP_MIN : ℚ) / TEMP_DIV ≤ 0 ∧ (0 : ℚ) ≤ (TEMP_MAX : ℚ) / TEMP_DIV ∧
    (Reading.make 1644624000 0 0 0).temperature_c = TEMP_NAN ∧
    ¬ |decodeTemp (Reading.make 1644624000 0 0 0).temperature_c - 0| ≤ 1 / TEMP_DIV := by
  refine ⟨by norm_num [TEMP_MIN, TEMP_DIV], by norm_num [TEMP_MAX, TEMP_DIV], ?_, ?_⟩
  · show encodeTemp 0 = TEMP_NAN
    rw [encodeTemp, if_neg (by rw [isnormalQ]; simp)]
  · show ¬ |decodeTemp (encodeTemp 0) - 0| ≤ 1 / TEMP_DIV
    rw [encodeTemp, if_neg (by rw [isnormalQ]; simp)]
    norm_num [decodeTemp, TEMP_NAN, TEMP_MIN, TEMP_DIV]
    rw [abs_of_nonneg (by norm_num)]
    norm_num

/-- C9 (amended): for every *normal* input (nonzero, in the binary32
normal range), encoding a `Reading` field and decoding it back is within
the field's resolution when the value is in the field's range, and
out-of-range inputs saturate to the field minimum or maximum. -/
theorem reading_roundtrip_saturation (ts : Nat) (x : ℚ) (hn : isnormalQ x = true) :
    ((TEMP_MIN : ℚ) / TEMP_DIV ≤ x → x ≤ (TEMP_MAX : ℚ) / TEMP_DIV →
      |decodeTemp (Reading.make ts x x x).temperature_c - x| ≤ 1 / TEMP_DIV) ∧
    (x < (TEMP_MIN : ℚ) / TEMP_DIV → (Reading.make ts x x x).temperature_c = TEMP_MIN) ∧
    ((TEMP_MAX : ℚ) / TEMP_DIV < x → (Reading.make ts x x x).temperature_c = TEMP_MAX) ∧
    ((RHUM_MIN : ℚ) / RHUM_DIV ≤ x → x ≤ (RHUM_MAX : ℚ) / RHUM_DIV →
      |decodeRhum (Reading.make ts x x x).relative_humidity_pc - x| ≤ 1 / RHUM_DIV) ∧
    (x < (RHUM_MIN : ℚ) / RHUM_DIV →
      (Reading.make ts x x x).relative_humidity_pc = Int.toNat RHUM_MIN) ∧
    ((RHUM_MAX : ℚ) / RHUM_DIV < x →
      (Reading.make ts x x x).relative_humidity_pc = Int.toNat RHUM_MAX) ∧
    ((CO2_MIN : ℚ) / CO2_DIV ≤ x → x ≤ (CO2_MAX : ℚ) / CO2_DIV →
      |decodeCo2 (Reading.make ts x x x).co2_ppm - x| ≤ 1 / CO2_DIV) ∧
    (x < (CO2_MIN : ℚ) / CO2_DIV → (Reading.make ts x x x).co2_ppm = Int.toNat CO2_MIN) ∧
    ((CO2_MAX : ℚ) / CO2_DIV < x → (Reading.make ts x x x).co2_ppm = Int.toNat CO2_MAX) := by
  have htd : (0 : ℚ) < (TEMP_DIV : ℚ) := by norm_num [TEMP_DIV]
  have hrd : (0 : ℚ) < (RHUM_DIV : ℚ) := by norm_num [RHUM_DIV]
  have hcd : (0 : ℚ) < (CO2_DIV : ℚ) := by norm_num [CO2_DIV]
  have hrnn : (0 : Int) ≤ max RHUM_MIN (min RHUM_MAX (lroundQ (x * (RHUM_DIV : ℚ)))) :=
    le_max_left _ _
  have hcnn : (0 : Int) ≤ max CO2_MIN (min CO2_MAX (lroundQ (x * (CO2_DIV : ℚ)))) :=
    le_max_left _ _
  simp only [Reading.make]
  refine ⟨fun hlo hhi => ?_, fun hlt => ?_, fun hgt => ?_,
    fun hlo hhi => ?_, fun hlt => ?_, fun hgt => ?_,
    fun hlo hhi => ?_, fun hlt => ?_, fun hgt => ?_⟩
  · rw [encodeTemp, if_pos hn, decodeTemp]
    exact clamp_roundtrip x TEMP_MIN TEMP_MAX TEMP_DIV (by norm_num [TEMP_DIV])
      ((div_le_iff htd).mp hlo) ((le_div_iff htd).mp hhi)
  · rw [encodeTemp, if_pos hn]
    exact clamp_lo x TEMP_MIN TEMP_MAX TEMP_DIV (by norm_num [TEMP_MIN, TEMP_MAX])
      (le_of_lt ((lt_div_iff htd).mp hlt))
  · rw [encodeTemp, if_pos hn]
    exact clamp_hi x TEMP_MIN TEMP_MAX TEMP_DIV (by norm_num [TEMP_MIN, TEMP_MAX])
      (le_of_lt ((div_lt_iff htd).mp hgt))
  · rw [encodeRhum, if_pos hn, decodeRhum, toNat_cast_div _ hrnn]
    exact clamp_roundtrip x RHUM_MIN RHUM_MAX RHUM_DIV (by norm_num [RHUM_DIV])
      ((div_le_iff hrd).mp hlo) ((le_div_iff hrd).mp hhi)
  · rw [encodeRhum, if_pos hn,
      clamp_lo x RHUM_MIN RHUM_MAX RHUM_DIV (by norm_num [RHUM_MIN, RHUM_MAX])
        (le_of_lt ((lt_div_iff hrd).mp hlt))]
  · rw [encodeRhum, if_pos hn,
      clamp_hi x RHUM_MIN RHUM_MAX RHUM_DIV (by norm_num [RHUM_MIN, RHUM_MAX])
        (le_of_lt ((div_lt_iff hrd).mp hgt))]
  · rw [encodeCo2, if_pos hn, decodeCo2, toNat_cast_div _ hcnn]
    exact clamp_roundtrip x CO2_MIN CO2_MAX CO2_DIV (by norm_num [CO2_DIV])
      ((div_le_iff hcd).mp hlo) ((le_div_iff hcd).mp hhi)
  · rw [encodeCo2, if_pos hn,
      clamp_lo x CO2_MIN CO2_MAX CO2_DIV (by norm_num [CO2_MIN, CO2_MAX])
        (le_of_lt ((lt_div_iff hcd).mp hlt))]
  · rw [encodeCo2, if_pos hn,
      clamp_hi x CO2_MIN CO2_MAX CO2_DIV (by norm_num [CO2_MIN, CO2_MAX])
        (le_of_lt ((div_lt_iff hcd).mp hgt))]

lemma isnormalQ_true_iff (x : ℚ) :
    isnormalQ x = true ↔
      (x ≠ 0 ∧ (2 : ℚ) ^ (126 : ℕ) * |x| ≥ 1 ∧ |x| < (2 : ℚ) ^ (128 : ℕ)) := by
  rw [isnormalQ]
  exact decide_eq_true_iff

/-- Witness for C9 (amended): the normal input 25.37 round-trips in all
three fields, and the normal input 100 saturates the temperature field to
its maximum. -/
theorem reading_roundtrip_saturation_witness :
    |decodeTemp (Reading.make 0 (2537 / 100) (2537 / 100) (2537 / 100)).temperature_c -
        2537 / 100| ≤ 1 / TEMP_DIV ∧
    |decodeRhum (Reading.make 0 (2537 / 100) (2537 / 100) (2537 / 100)).relative_humidity_pc -
        2537 / 100| ≤ 1 / RHUM_DIV ∧
    |decodeCo2 (Reading.make 0 (2537 / 100) (2537 / 100) (2537 / 100)).co2_ppm -
        2537 / 100| ≤ 1 / CO2_DIV ∧
    (Reading.make 0 100 100 100).temperature_c = TEMP_MAX := by
  have hq2537 : isnormalQ (2537 / 100) = true := by
    rw [isnormalQ_true_iff]
    rw [abs_of_pos (by norm_num)]
    norm_num
  have hq100 : isnormalQ (100 : ℚ) = true := by
    rw [isnormalQ_true_iff]
    rw [abs_of_pos (by norm_num)]
    norm_num
  exact ⟨(reading_roundtrip_saturation 0 (2537 / 100) hq2537).1
      (by norm_num [TEMP_MIN, TEMP_DIV]) (by norm_num [TEMP_MAX, TEMP_DIV]),
   (reading_roundtrip_saturation 0 (2537 / 100) hq2537).2.2.2.1
      (by norm_num [RHUM_MIN, RHUM_DIV]) (by norm_num [RHUM_MAX, RHUM_DIV]),
   (reading_roundtrip_saturation 0 (2537 / 100) hq2537).2.2.2.2.2.2.1
      (by norm_num [CO2_MIN, CO2_DIV]) (by norm_num [CO2_MAX, CO2_DIV]),
   (reading_roundtrip_saturation 0 100 hq100).2.2.1
      (by norm_num [TEMP_MAX, TEMP_DIV])⟩

/-! ## SEND payload construction (C2) -/

lemma decAux_length_le : ∀ (k n : Nat) (acc : List Char), n < 10 ^ k → 1 ≤ k →
    (decAux n acc).length ≤ k + acc.length := by
  intro k
  induction k with
  | zero => intro n acc _ hk; omega
  | succ k ih =>
    intro n acc hn _
    by_cases h10 : n < 10
    · rw [decAux, dif_pos h10]
      simp
      omega
    · rw [decAux, dif_neg h10]
      have hk1 : 1 ≤ k := by
        by_contra hk0
        have : k = 0 := by omega
        subst this
        simp at hn
        omega
      have hdiv : n / 10 < 10 ^ k := by
        rw [Nat.div_lt_iff_lt_mul (by omega)]
        calc n < 10 ^ (k + 1) := hn
        _ = 10 ^ k * 10 := by ring
      have := ih (n / 10) (Char.ofNat (48 + n % 10) :: acc) hdiv hk1
      simp at this ⊢
      omega

lemma decChars_length_le (n k : Nat) (h : n < 10 ^ k) (hk : 1 ≤ k) :
    (decChars n).length ≤ k := by
  have := decAux_length_le k n [] h hk
  simpa [decChars] using this

lemma pad2_length_le (n : Nat) (h : n < 100) : (pad2 n).length ≤ 2 := by
  unfold pad2
  split
  · have := decChars_length_le n 1 (by omega) (by omega)
    simp
    omega
  · exact decChars_length_le n 2 (by omega) (by omega)

lemma intChars_length_le (i : Int) (k : Nat) (h : i.natAbs < 10 ^ k) (hk : 1 ≤ k) :
    (intChars i).length ≤ 1 + k := by
  unfold intChars
  have := decChars_length_le i.natAbs k h hk
  split <;> simp <;> omega

lemma ctdiv_natAbs (t : Int) (d : Nat) : (ctdiv t d).natAbs = t.natAbs / d := by
  unfold ctdiv
  split
  · rw [Int.natAbs_ofNat]
    congr 1
    omega
  · rw [Int.natAbs_neg, Int.natAbs_ofNat]
    congr 1
    omega

lemma tsText_length_le (ts : Nat) (h : ts < 2 ^ 32) : (tsText ts).length ≤ 13 := by
  have := decChars_length_le ts 10 (by omega) (by omega)
  simp [tsText]
  omega

lemma tempText_length_le (t : Int) (h1 : -8192 ≤ t) (h2 : t ≤ 8191) :
    (tempText t).length ≤ 9 := by
  have habs : t.natAbs ≤ 8192 := by omega
  have hdiv : (ctdiv t TEMP_DIV).natAbs < 10 ^ 2 := by
    rw [ctdiv_natAbs]
    have : t.natAbs / TEMP_DIV ≤ 8192 / 100 := Nat.div_le_div_right habs
    simp [TEMP_DIV] at this ⊢
    omega
  have hint := intChars_length_le _ 2 hdiv (by omega)
  have hpad := pad2_length_le (t.natAbs % TEMP_DIV * TEMP_MUL)
    (by simp [TEMP_DIV, TEMP_MUL]; omega)
  simp [tempText]
  omega

lemma humText_length_le (h : Nat) (hh : h ≤ 16383) : (humText h).length ≤ 9 := by
  have hdiv := decChars_length_le (h / RHUM_DIV) 3
    (by simp [RHUM_DIV]; omega) (by omega)
  have hpad := pad2_length_le (h % RHUM_DIV * RHUM_MUL)
    (by simp [RHUM_DIV, RHUM_MUL]; omega)
  simp [humText]
  omega

lemma co2Text_length_le (c : Nat) (hc : c ≤ 1048575) : (co2Text c).length ≤ 11 := by
  have hdiv := decChars_length_le (c / CO2_DIV) 5
    (by simp [CO2_DIV]; omega) (by omega)
  have hpad := pad2_length_le (c % CO2_DIV * CO2_MUL)
    (by simp [CO2_DIV, CO2_MUL]; omega)
  simp [co2Text]
  omega

/-- For a wellformed reading no `snprintf` guard fires: the SEND loop
encodes the full segment. -/
lemma readingText_wf (r : Reading) (hwf : r.WF) : readingText r = some (segText r) := by
  obtain ⟨hts, ht1, ht2, hh, hc⟩ := hwf
  have g1 : ¬ 16 ≤ (tsText r.timestamp).length := by
    have := tsText_length_le _ hts
    omega
  have g2 : ¬ 16 ≤ (tempText r.temperature_c).length := by
    have := tempText_length_le _ ht1 ht2
    omega
  have g3 : ¬ 16 ≤ (humText r.relative_humidity_pc).length := by
    have := humText_length_le _ hh
    omega
  have g4 : ¬ 16 ≤ (co2Text r.co2_ppm).length := by
    have := co2Text_length_le _ hc
    omega
  rw [readingText, segText]
  simp only [tsPieceOpt, tempPieceOpt, humPieceOpt, co2PieceOpt,
    if_neg g1, if_neg g2, if_neg g3, if_neg g4]
  by_cases hN1 : r.temperature_c = TEMP_NAN <;>
    by_cases hN2 : r.relative_humidity_pc = RHUM_NAN <;>
    by_cases hN3 : r.co2_ppm = CO2_NAN <;>
    simp [hN1, hN2, hN3, Option.bind]

lemma getLast?_cons_ne (a : α) (l : List α) (h : l ≠ []) :
    (a :: l).getLast? = l.getLast? := by
  cases l with
  | nil => exact absurd rfl h
  | cons b t => exact List.getLast?_cons_cons

/-- The SEND loop once at least one reading is included: it appends the
segments of some prefix of the remaining readings, stops exactly when the
next segment would exceed the byte cap, keeps `first`, tracks `last`, and
keeps the payload within the cap across every appended segment. -/
lemma sendLoop_run (cap : Nat) : ∀ (rs : List Reading) (acc : SendAcc),
    (∀ r ∈ rs, Reading.WF r) →
    0 < acc.count → acc.first ≠ 0 →
    ∃ k, k ≤ rs.length ∧
      sendLoop cap rs acc =
        { payload := acc.payload ++ segJoin (rs.take k)
          count := acc.count + k
          first := acc.first
          last := (rs.take k).getLast?.elim acc.last Reading.timestamp } ∧
      (∀ h : k < rs.length,
        cap < (acc.payload ++ segJoin (rs.take k)).length +
          (segText (rs.get ⟨k, h⟩)).length) ∧
      (0 < k → (acc.payload ++ segJoin (rs.take k)).length ≤ cap) := by
  intro rs
  induction rs with
  | nil =>
    intro acc _ _ _
    refine ⟨0, by simp, ?_, fun h => by simp at h, fun h => absurd h (by decide)⟩
    show acc = _
    cases acc
    simp [segJoin]
  | cons r rest ih =>
    intro acc hwf hcount hfirst
    have hr := readingText_wf r (hwf r (List.mem_cons_self r rest))
    rw [sendLoop, hr]
    dsimp only
    by_cases hstop : 0 < acc.count ∧ cap < acc.payload.length + (segText r).length
    · rw [if_pos hstop]
      refine ⟨0, by simp, ?_, fun h => ?_, by omega⟩
      · show acc = _
        cases acc
        simp [segJoin]
      · simpa [segJoin] using hstop.2
    · rw [if_neg hstop]
      have hnover : acc.payload.length + (segText r).length ≤ cap := by
        rcases Nat.lt_or_ge cap (acc.payload.length + (segText r).length) with hlt | hle2
        · exact absurd ⟨hcount, hlt⟩ hstop
        · exact hle2
      rw [if_neg hfirst]
      obtain ⟨k, hk, heq, hbound, hle⟩ := ih
        { payload := acc.payload ++ segText r
          count := acc.count + 1
          first := acc.first
          last := r.timestamp }
        (fun a ha => hwf a (List.mem_cons_of_mem r ha)) (by simp) hfirst
      refine ⟨k + 1, by simp; omega, ?_, fun h => ?_, fun _ => ?_⟩
      · rw [heq]
        simp only [List.take_succ_cons, segJoin, SendAcc.mk.injEq]
        refine ⟨by rw [List.append_assoc], by omega, trivial, ?_⟩
        cases htk : rest.take k with
        | nil => simp
        | cons b t =>
          rw [getLast?_cons_ne r (b :: t) (by simp)]
          cases hgl : (b :: t).getLast? with
          | none => simp at hgl
          | some x => rfl
      · simp only [List.take_succ_cons, segJoin, ← List.append_assoc, List.get_cons_succ]
        exact hbound (by simpa using h)
      · simp only [List.take_succ_cons, segJoin, ← List.append_assoc]
        rcases Nat.eq_zero_or_pos k with hk0 | hkpos
        · subst hk0
          simp only [List.take_zero, segJoin, List.append_nil, List.length_append]
          omega
        · exact hle hkpos

/-- The SEND loop on a nonempty wellformed buffer from the empty
accumulator: the first (oldest) reading is always included, even if its
segment alone exceeds the cap. -/
lemma sendLoop_start (cap : Nat) (rs : List Reading) (header : List Char) (r0 : Reading)
    (hhead : rs.head? = some r0)
    (hwf : ∀ r ∈ rs, Reading.WF r)
    (hts : ∀ r ∈ rs, r.timestamp ≠ 0) :
    ∃ k rk, 1 ≤ k ∧ k ≤ rs.length ∧ (rs.take k).getLast? = some rk ∧
      sendLoop cap rs ⟨header, 0, 0, 0⟩ =
        ⟨header ++ segJoin (rs.take k), k, r0.timestamp, rk.timestamp⟩ ∧
      (2 ≤ k → (header ++ segJoin (rs.take k)).length ≤ cap) ∧
      (∀ h : k < rs.length,
        cap < (header ++ segJoin (rs.take k)).length + (segText (rs.get ⟨k, h⟩)).length) := by
  cases rs with
  | nil => cases hhead
  | cons r rest =>
    have hr0 : r0 = r := by
      simp [List.head?] at hhead
      exact hhead.symm
    subst hr0
    have hr := readingText_wf r0 (hwf r0 (List.mem_cons_self r0 rest))
    rw [sendLoop, hr]
    dsimp only
    rw [if_neg (by simp), if_pos rfl]
    obtain ⟨k, hk, heq, hbound, hle⟩ := sendLoop_run cap rest
      ⟨header ++ segText r0, 0 + 1, r0.timestamp, r0.timestamp⟩
      (fun a ha => hwf a (List.mem_cons_of_mem r0 ha)) (by simp)
      (hts r0 (List.mem_cons_self r0 rest))
    refine ⟨k + 1, ((r0 :: rest.take k).getLast (by simp)), by omega, by simp; omega, ?_, ?_,
      fun h2 => ?_, fun h => ?_⟩
    · rw [List.take_succ_cons]
      exact List.getLast?_eq_getLast _ _
    · rw [heq]
      simp only [List.take_succ_cons, segJoin, SendAcc.mk.injEq]
      refine ⟨by rw [List.append_assoc], by omega, trivial, ?_⟩
      cases htk : rest.take k with
      | nil =>
        simp [List.getLast?_eq_getLast]
      | cons b t =>
        have h1 : (r0 :: b :: t).getLast? = (b :: t).getLast? := List.getLast?_cons_cons
        have h2 : (r0 :: b :: t).getLast? = some ((r0 :: b :: t).getLast (by simp)) :=
          List.getLast?_eq_getLast _ _
        rw [← h1, h2]
        cases hgl : (b :: t).getLast? with
        | none => simp at hgl
        | some x =>
          rw [hgl] at h1
          rw [h2] at h1
          simp at h1
          simp [h1]
    · simp only [List.take_succ_cons, segJoin, ← List.append_assoc]
      exact hle (by omega)
    · simp only [List.take_succ_cons, segJoin, ← List.append_assoc, List.get_cons_succ]
      exact hbound (by simpa using h)

/-- The SEND step records the first/last included timestamps computed by
the encoding loop, on every branch. -/
lemma upload_send_ts (env : HttpEnv) (s : ReportState) (hsend : s.upstate = .send) :
    (Report.upload env s false).upload_ts_first =
      (sendLoop MAXIMUM_UPLOAD_BYTES s.readings ⟨uploadHeader s, 0, 0, 0⟩).first ∧
    (Report.upload env s false).upload_ts_last =
      (sendLoop MAXIMUM_UPLOAD_BYTES s.readings ⟨uploadHeader s, 0, 0, 0⟩).last := by
  rw [Report.upload.eq_def, hsend]
  dsimp only
  constructor
  all_goals
    split
    · rfl
    · split <;> rfl

/-- C2: in the SEND phase the payload is the credentials header followed
by one segment per included reading, taken oldest-first as a prefix of the
buffer; the loop stops exactly before a reading whose segment would push
the payload over `MAXIMUM_UPLOAD_BYTES` (the cap binds only from the
second reading on, so the oldest reading is always included), and the
first and last included timestamps are recorded in the upload state. -/
theorem report_send_payload_policy (env : HttpEnv) (s : ReportState) (r0 : Reading)
    (hsend : s.upstate = .send)
    (hhead : s.readings.head? = some r0)
    (hwf : ∀ r ∈ s.readings, Reading.WF r)
    (hts : ∀ r ∈ s.readings, r.timestamp ≠ 0) :
    ∃ k rk,
      1 ≤ k ∧ k ≤ s.readings.length ∧
      (s.readings.take k).getLast? = some rk ∧
      sendLoop MAXIMUM_UPLOAD_BYTES s.readings ⟨uploadHeader s, 0, 0, 0⟩ =
        ⟨uploadHeader s ++ segJoin (s.readings.take k), k, r0.timestamp, rk.timestamp⟩ ∧
      (2 ≤ k →
        (uploadHeader s ++ segJoin (s.readings.take k)).length ≤ MAXIMUM_UPLOAD_BYTES) ∧
      (∀ h : k < s.readings.length,
        MAXIMUM_UPLOAD_BYTES <
          (uploadHeader s ++ segJoin (s.readings.take k)).length +
            (segText (s.readings.get ⟨k, h⟩)).length) ∧
      (Report.upload env s false).upload_ts_first = r0.timestamp ∧
      (Report.upload env s false).upload_ts_last = rk.timestamp := by
  obtain ⟨k, rk, h1, h2, h3, h4, h5, h6⟩ :=
    sendLoop_start MAXIMUM_UPLOAD_BYTES s.readings (uploadHeader s) r0 hhead hwf hts
  refine ⟨k, rk, h1, h2, h3, h4, h5, h6, ?_, ?_⟩
  · rw [(upload_send_ts env s hsend).1, h4]
  · rw [(upload_send_ts env s hsend).2, h4]

/-- Witness for C2: a two-reading buffer in the SEND phase. -/
theorem report_send_payload_policy_witness :
    ∃ k rk,
      1 ≤ k ∧
      k ≤ ({ ReportState.init with
        upstate := .send
        username := "u".toList
        password := "p".toList
        sensor_name := "n".toList
        readings := [⟨1644624000, 2000, 5000, 12000⟩, ⟨1644624001, 2100, 5100, 12100⟩]
        } : ReportState).readings.length ∧
      (({ ReportState.init with
        upstate := .send
        username := "u".toList
        password := "p".toList
        sensor_name := "n".toList
        readings := [⟨1644624000, 2000, 5000, 12000⟩, ⟨1644624001, 2100, 5100, 12100⟩]
        } : ReportState).readings.take k).getLast? = some rk ∧
      sendLoop MAXIMUM_UPLOAD_BYTES
          ({ ReportState.init with
            upstate := .send
            username := "u".toList
            password := "p".toList
            sensor_name := "n".toList
            readings := [⟨1644624000, 2000, 5000, 12000⟩, ⟨1644624001, 2100, 5100, 12100⟩]
            } : ReportState).readings
          ⟨uploadHeader { ReportState.init with
            upstate := .send
            username := "u".toList
            password := "p".toList
            sensor_name := "n".toList
            readings := [⟨1644624000, 2000, 5000, 12000⟩, ⟨1644624001, 2100, 5100, 12100⟩]
            }, 0, 0, 0⟩ =
        ⟨uploadHeader { ReportState.init with
            upstate := .send
            username := "u".toList
            password := "p".toList
            sensor_name := "n".toList
            readings := [⟨1644624000, 2000, 5000, 12000⟩, ⟨1644624001, 2100, 5100, 12100⟩]
            } ++
          segJoin (({ ReportState.init with
            upstate := .send
            username := "u".toList
            password := "p".toList
            sensor_name := "n".toList
            readings := [⟨1644624000, 2000, 5000, 12000⟩, ⟨1644624001, 2100, 5100, 12100⟩]
            } : ReportState).readings.take k),
          k, (1644624000 : Nat), rk.timestamp⟩ ∧
      (2 ≤ k →
        (uploadHeader { ReportState.init with
            upstate := .send
            username := "u".toList
            password := "p".toList
            sensor_name := "n".toList
            readings := [⟨1644624000, 2000, 5000, 12000⟩, ⟨1644624001, 2100, 5100, 12100⟩]
            } ++
          segJoin (({ ReportState.init with
            upstate := .send
            username := "u".toList
            password := "p".toList
            sensor_name := "n".toList
            readings := [⟨1644624000, 2000, 5000, 12000⟩, ⟨1644624001, 2100, 5100, 12100⟩]
            } : ReportState).readings.take k)).length ≤ MAXIMUM_UPLOAD_BYTES) ∧
      (∀ h : k < ({ ReportState.init with
            upstate := .send
            username := "u".toList
            password := "p".toList
            sensor_name := "n".toList
            readings := [⟨1644624000, 2000, 5000, 12000⟩, ⟨1644624001, 2100, 5100, 12100⟩]
            } : ReportState).readings.length,
        MAXIMUM_UPLOAD_BYTES <
          (uploadHeader { ReportState.init with
            upstate := .send
            username := "u".toList
            password := "p".toList
            sensor_name := "n".toList
            readings := [⟨1644624000, 2000, 5000, 12000⟩, ⟨1644624001, 2100, 5100, 12100⟩]
            } ++
            segJoin (({ ReportState.init with
              upstate := .send
              username := "u".toList
              password := "p".toList
              sensor_name := "n".toList
              readings := [⟨1644624000, 2000, 5000, 12000⟩, ⟨1644624001, 2100, 5100, 12100⟩]
              } : ReportState).readings.take k)).length +
            (segText (({ ReportState.init with
              upstate := .send
              username := "u".toList
              password := "p".toList
              sensor_name := "n".toList
              readings := [⟨1644624000, 2000, 5000, 12000⟩, ⟨1644624001, 2100, 5100, 12100⟩]
              } : ReportState).readings.get ⟨k, h⟩)).length) ∧
      (Report.upload ⟨200, []⟩ { ReportState.init with
            upstate := .send
            username := "u".toList
            password := "p".toList
            sensor_name := "n".toList
            readings := [⟨1644624000, 2000, 5000, 12000⟩, ⟨1644624001, 2100, 5100, 12100⟩]
            } false).upload_ts_first = 1644624000 ∧
      (Report.upload ⟨200, []⟩ { ReportState.init with
            upstate := .send
            username := "u".toList
            password := "p".toList
            sensor_name := "n".toList
            readings := [⟨1644624000, 2000, 5000, 12000⟩, ⟨1644624001, 2100, 5100, 12100⟩]
            } false).upload_ts_last = rk.timestamp :=
  report_send_payload_policy ⟨200, []⟩
    { ReportState.init with
      upstate := .send
      username := "u".toList
      password := "p".toList
      sensor_name := "n".toList
      readings := [⟨1644624000, 2000, 5000, 12000⟩, ⟨1644624001, 2100, 5100, 12100⟩] }
    ⟨1644624000, 2000, 5000, 12000⟩ rfl rfl (by decide) (by decide)

end Scd30
